import Mathlib

/-!
# Jeu-enquête: a shallow embedding of `src/script.js`

The script is a browser quiz: a code-entry screen, five riddles, a score
screen.  Its state lives in `localStorage` (five keys), in the DOM (screens,
messages, a modal) and in two analytics sinks.  Every click handler of the
script is embedded below as a function on an explicit `World`.

Modelling conventions

* `localStorage` holds strings.  The script writes the numeric keys only as
  `String(n)` for an integer `n` (`Date.now()`, `"0"`, `current + 1`) and
  reads them back with `Number(...)`, so a numeric key is modelled by the
  integer it denotes, `none` standing for an absent key.  Integer arithmetic
  is exact (the counters stay far below `2^53`).
* `Date.now()` is an oracle: the `k`-th read made since the page was loaded
  returns `clock k`.  Each call in the source is one read in the model.
* The built-in string methods (`trim`, `slice`, `toUpperCase`, `length`) are
  taken from the platform as `StringOps`; `asciiOps` is a concrete instance.
* Every DOM element the script looks up by id is taken to exist.
* `Math.floor(x / 1000)` on an integer `x` is floor division; for the
  positive divisors used here Lean's `/` on `Int` is floor division.
-/

namespace JeuEnquete

/-! ## Values -/

/-- The JavaScript values that occur in analytics payloads. -/
inductive JsVal where
  | null
  | num (n : Int)
  | str (s : String)
  deriving DecidableEq, Repr

/-- An object literal: its own properties in insertion order. -/
abbrev Obj := List (String × JsVal)

/-- Property lookup `o[k]` (`none` for `undefined`). -/
def Obj.get (o : Obj) (k : String) : Option JsVal :=
  (o.find? (fun kv => decide (kv.1 = k))).map Prod.snd

/-- Assignment of one property: an existing key keeps its position. -/
def Obj.set (o : Obj) (k : String) (v : JsVal) : Obj :=
  if o.any (fun kv => decide (kv.1 = k)) then
    o.map (fun kv => if kv.1 = k then (k, v) else kv)
  else o ++ [(k, v)]

/-- The object spread `{ ...base, ...extra }`. -/
def Obj.spread (base extra : Obj) : Obj :=
  extra.foldl (fun acc kv => Obj.set acc kv.1 kv.2) base

/-- The JavaScript `a || d` on an optional string: `undefined` and `""` are falsy. -/
def jsOr (a : Option String) (d : String) : String :=
  match a with
  | some s => if s = "" then d else s
  | none => d

/-- The JavaScript `a ?? d` on an optional string: only `undefined`/`null` is replaced. -/
def jsNullish (a : Option String) (d : String) : String :=
  match a with
  | some s => s
  | none => d

/-- The string built-ins the script calls, supplied by the platform. -/
structure StringOps where
  trim : String → String
  slice : String → Nat → Nat → String
  toUpperCase : String → String
  length : String → Nat
  length_empty : length "" = 0

/-- A concrete platform: whitespace trimming, code-point slicing, ASCII upper-casing. -/
def asciiOps : StringOps where
  trim := fun s =>
    String.mk ((s.data.dropWhile Char.isWhitespace).reverse.dropWhile Char.isWhitespace).reverse
  slice := fun s a b => String.mk ((s.data.take b).drop a)
  toUpperCase := fun s => String.mk (s.data.map Char.toUpper)
  length := fun s => s.data.length
  length_empty := rfl

/-! ## Configuration (`config.json`) -/

/-- One sub-question of a multi-question riddle. -/
structure Question where
  label : Option String
  options : List String
  correct : Option String
  hint : Option String
  deriving DecidableEq, Repr

/-- A riddle of `CONFIG.riddles`; a field the document omits is `none`. -/
structure Riddle where
  id : Nat
  title : Option String
  question : Option String
  options : List String
  correct : Option String
  questions : Option (List Question)
  errorText : Option String
  successText : Option String
  successTitle : Option String
  successButton : Option String
  deriving DecidableEq, Repr

/-- The entries of `CONFIG.texts` read by the handlers. -/
structure Texts where
  errorInvalidCode : Option String
  successCode : Option String
  modalSuccessTitle : Option String
  modalSuccessButton : Option String
  deriving DecidableEq, Repr

/-- The page description `CONFIG.preScorePage`. -/
structure PreScorePage where
  title : Option String
  text : Option String
  button : Option String
  deriving DecidableEq, Repr

/-- The page description `CONFIG.postScorePage`. -/
structure PostScorePage where
  title : Option String
  text : Option String
  button : Option String
  redirectUrl : Option String
  deriving DecidableEq, Repr

/-- The loaded configuration document. -/
structure Config where
  texts : Option Texts
  validPrefixes : List String
  riddles : Option (List Riddle)
  preScorePage : Option PreScorePage
  postScorePage : Option PostScorePage
  deriving DecidableEq, Repr

/-! ## State -/

/-- The five `localStorage` keys. -/
structure Storage where
  userCode : Option String
  startTime : Option Int
  lastSuccessTime : Option Int
  totalErrors : Option Nat
  totalHints : Option Nat
  deriving DecidableEq, Repr

/-- An element of class `screen`. -/
structure Screen where
  id : String
  hidden : Bool
  active : Bool
  deriving DecidableEq, Repr

/-- A screen is visible when it has no `hidden` attribute and carries `screen--active`. -/
def Screen.visible (s : Screen) : Bool := !s.hidden && s.active

/-- A call `track(eventName, data)`. -/
structure Event where
  name : String
  data : Obj
  deriving DecidableEq, Repr

/-- The modal dialog.  A handler `close` built by `openModal` is represented by the
screen its `onContinue` closure shows. -/
structure Modal where
  isOpen : Bool
  ariaHidden : Option String
  title : String
  text : String
  button : String
  btnOnClick : Option String
  backdropOnClick : Option String
  deriving DecidableEq, Repr

/-- The elements written by `showPreScore` and by `showPostScore`; `btnInstalled`
tells whether the page button has received its `onclick`. -/
structure PageView where
  title : String
  titleDisplay : String
  text : String
  button : String
  btnInstalled : Bool
  deriving DecidableEq, Repr

/-- Everything a handler can read or write. -/
structure World where
  config : Option Config
  str : StringOps
  clock : Nat → Int
  reads : Nat
  storage : Storage
  screens : List Screen
  tracked : List Event
  sheet : List Obj
  warnings : List String
  scrolledTo : Option String
  codeMessage : String
  r1Message : String
  r2Message : String
  r3Message : String
  r4Message : String
  r5Message : String
  btnR1ContinueDisplay : String
  usedHints : List Nat
  r2HintShown : List Nat
  modal : Modal
  scoreTime : String
  scoreErrors : String
  scoreHints : String
  preScore : PageView
  postScore : PageView
  redirect : Option String

/-! ## Helpers of the script -/

/-- One call of `Date.now()`. -/
def dateNow (w : World) : Int × World :=
  (w.clock w.reads, { w with reads := w.reads + 1 })

/-- Source: `getUserCode`. -/
def getUserCode (w : World) : String :=
  jsOr w.storage.userCode ""

/-- Source: `getUserPrefix`. -/
def getUserPrefix (w : World) : String :=
  w.str.toUpperCase (w.str.slice (getUserCode w) 0 4)

/-- Source: `getStartTime`; `Number(null)` is `0`. -/
def getStartTime (w : World) : Option Int :=
  match w.storage.startTime with
  | some t => if 0 < t then some t else none
  | none => none

/-- Source: `getLastSuccessTime`. -/
def getLastSuccessTime (w : World) : Option Int :=
  match w.storage.lastSuccessTime with
  | some t => if 0 < t then some t else none
  | none => none

/-- Source: `setLastSuccessTime`. -/
def setLastSuccessTime (t : Int) (w : World) : World :=
  { w with storage := { w.storage with lastSuccessTime := some t } }

/-- Source: `secondsSinceStart`; the clock is read only when a start time is recorded. -/
def secondsSinceStart (w : World) : JsVal × World :=
  match getStartTime w with
  | none => (JsVal.null, w)
  | some start => (JsVal.num (((dateNow w).1 - start) / 1000), (dateNow w).2)

/-- Source: `secondsSinceLastSuccess`. -/
def secondsSinceLastSuccess (w : World) : JsVal × World :=
  match getLastSuccessTime w with
  | none => (JsVal.null, w)
  | some last => (JsVal.num (((dateNow w).1 - last) / 1000), (dateNow w).2)

/-- Source: `revealMessage`, the element being scrolled into view. -/
def revealMessage (el : String) (w : World) : World :=
  { w with scrolledTo := some el }

/-- Source: `logToSheet`; the logger is enabled and its URL is set, so the payload
`{ eventName, ts, ...data }` is always posted. -/
def logToSheet (eventName : String) (data : Obj) (w : World) : World :=
  { (dateNow w).2 with
    sheet := w.sheet ++
      [Obj.spread [("eventName", JsVal.str eventName), ("ts", JsVal.num (dateNow w).1)] data] }

/-- Source: `track`; whichever of `umami.track`, `umami` or `console.log` is present
receives the same `eventName` and `data`. -/
def track (eventName : String) (data : Obj) (w : World) : World :=
  { logToSheet eventName data w with tracked := w.tracked ++ [⟨eventName, data⟩] }

/-- Source: `baseTrackData`. -/
def baseTrackData (extra : Obj) (w : World) : Obj × World :=
  (Obj.spread
    [("userCode", JsVal.str (getUserCode w)),
     ("prefix", JsVal.str (getUserPrefix w)),
     ("secondsSinceStart", (secondsSinceStart w).1)] extra,
   (secondsSinceStart w).2)

/-- The loop body of `showScreen` on one screen element. -/
def toggleScreen (screenId : String) (s : Screen) : Screen :=
  if s.id = screenId then { s with active := true, hidden := false }
  else { s with active := false, hidden := true }

/-- Source: `showScreen`. -/
def showScreen (screenId : String) (w : World) : World :=
  let found := w.screens.any (fun s => decide (s.id = screenId))
  let w1 := { w with screens := w.screens.map (toggleScreen screenId) }
  let w2 := if found then w1
    else { w1 with warnings := w1.warnings ++ ["Écran introuvable : " ++ screenId] }
  track "screen_view" (baseTrackData [("screen", JsVal.str screenId)] w2).1
    (baseTrackData [("screen", JsVal.str screenId)] w2).2

/-- The message of the rejection branch of the code handler. -/
def invalidCodeMessage (w : World) : String :=
  jsNullish ((w.config.bind Config.texts).bind Texts.errorInvalidCode) "Code invalide."

/-- Source: the `click` listener of `btnValidateCode` in `initUI`, on the text of
`codeInput`.  Dereferencing `validPrefixes` on a null `CONFIG` throws. -/
def btnValidateCode (value : String) (w : World) : Except String World :=
  let raw := w.str.trim value
  let pfx := w.str.toUpperCase (w.str.slice raw 0 4)
  if pfx = "" ∨ w.str.length pfx < 4 then
    Except.ok { w with codeMessage := invalidCodeMessage w }
  else
    match w.config with
    | none => Except.error "TypeError: CONFIG is null"
    | some cfg =>
      if pfx ∉ cfg.validPrefixes then
        Except.ok { w with codeMessage := invalidCodeMessage w }
      else
        let now := (dateNow w).1
        let w1 := (dateNow w).2
        let w2 := { w1 with
          storage :=
            { userCode := some raw, startTime := some now, lastSuccessTime := some now,
              totalErrors := some 0, totalHints := some 0 } }
        let w3 := { w2 with
          codeMessage := jsNullish ((cfg.texts).bind Texts.successCode) "OK" }
        let d := baseTrackData
          [("userCode", JsVal.str raw), ("prefix", JsVal.str pfx),
           ("secondsSinceStart", JsVal.num 0)] w3
        Except.ok (showScreen "screen-instructions" (track "code_validated" d.1 d.2))

/-! ## Modal -/

/-- Source: `openModal`; `target` is the screen shown by the `onContinue` closure. -/
def openModal (title text button target : String) (w : World) : World :=
  { w with modal :=
      { isOpen := true, ariaHidden := some "false", title := title, text := text,
        button := button, btnOnClick := some target, backdropOnClick := some target } }

/-- The closure `close` of `openModal`. -/
def modalClose (target : String) (w : World) : World :=
  showScreen target
    { w with modal :=
        { w.modal with isOpen := false, ariaHidden := some "true", btnOnClick := none } }

/-- A click on `modalBtn`. -/
def modalBtnClick (w : World) : World :=
  match w.modal.btnOnClick with
  | none => w
  | some target => modalClose target w

/-- A click on `modalBackdrop`. -/
def modalBackdropClick (w : World) : World :=
  match w.modal.backdropOnClick with
  | none => w
  | some target => modalClose target w

/-! ## Score, pre-score and post-score pages -/

/-- Source: `showScore`. -/
def showScore (w : World) : World :=
  let startTime : Int := w.storage.startTime.getD 0
  let totalErrors : Nat := w.storage.totalErrors.getD 0
  let totalHints : Nat := w.storage.totalHints.getD 0
  let w1 :=
    if startTime = 0 then { w with scoreTime := "—" }
    else
      let durationMs := (dateNow w).1 - startTime
      let seconds := durationMs / 1000
      let minutes := seconds / 60
      let remainingSeconds := Int.tmod seconds 60
      { (dateNow w).2 with
        scoreTime := toString minutes ++ " min " ++ toString remainingSeconds ++ " s" }
  let w2 := { w1 with scoreErrors := toString totalErrors, scoreHints := toString totalHints }
  let totalSeconds : JsVal :=
    if startTime = 0 then JsVal.null
    else JsVal.num (((dateNow w2).1 - startTime) / 1000)
  let w3 := if startTime = 0 then w2 else (dateNow w2).2
  let d := baseTrackData
    [("totalSeconds", totalSeconds), ("errors", JsVal.num totalErrors),
     ("hints", JsVal.num totalHints)] w3
  track "game_completed" d.1 d.2

/-- The writes shared by `showPreScore` and `showPostScore`: the title is set and
displayed when the page has one and hidden otherwise, the text and the button label are
set, the button receives its `onclick`. -/
def renderPage (title text button : Option String) (defaultButton : String)
    (view : PageView) : PageView :=
  { title := if jsOr title "" = "" then view.title else jsOr title "",
    titleDisplay := if jsOr title "" = "" then "none" else "block",
    text := jsOr text "",
    button := jsOr button defaultButton,
    btnInstalled := true }

/-- Source: `showPreScore`. -/
def showPreScore (w : World) : World :=
  match w.config.bind Config.preScorePage with
  | none => w
  | some data =>
    { w with preScore :=
        renderPage data.title data.text data.button "Voir le score" w.preScore }

/-- Source: `showPostScore`. -/
def showPostScore (w : World) : World :=
  match w.config.bind Config.postScorePage with
  | none => w
  | some data =>
    { w with postScore :=
        renderPage data.title data.text data.button "Terminer" w.postScore }

/-- The `onclick` installed on `btnPreScore` by `showPreScore`. -/
def btnPreScoreClick (w : World) : World :=
  if w.preScore.btnInstalled then showScore (showScreen "screen-score" w) else w

/-- The `onclick` installed on `btnPostScore` by `showPostScore`: the event is tracked,
then the page is left. -/
def btnPostScoreClick (w : World) : World :=
  if w.postScore.btnInstalled then
    match (w.config.bind Config.postScorePage).bind PostScorePage.redirectUrl with
    | none => w
    | some url =>
      if url = "" then w
      else
        let d := baseTrackData
          [("target", JsVal.str "post_score_redirect"), ("url", JsVal.str url)] w
        { track "outbound_click" d.1 d.2 with redirect := some url }
  else w

/-- Source: `hideSplash`. -/
def hideSplash (w : World) : World :=
  showScreen "screen-code"
    { w with
      screens :=
        w.screens.map
          (fun s => if s.id = "screen-splash" then { s with hidden := true } else s) }

/-! ## Riddles -/

/-- The lookup `(CONFIG?.riddles || []).find((r) => r.id === n)` of each `initRiddle`. -/
def findRiddle (n : Nat) (w : World) : Option Riddle :=
  ((w.config.bind Config.riddles).getD []).find? (fun r => decide (r.id = n))

/-- The two statements that add one to the stored `totalErrors`. -/
def incrementErrors (w : World) : World :=
  { w with storage :=
      { w.storage with totalErrors := some (w.storage.totalErrors.getD 0 + 1) } }

/-- The two statements that add one to the stored `totalHints`. -/
def incrementHints (w : World) : World :=
  { w with storage :=
      { w.storage with totalHints := some (w.storage.totalHints.getD 0 + 1) } }

/-- The title passed to `openModal` by a success branch. -/
def successTitle (r : Riddle) (w : World) : String :=
  jsOr r.successTitle
    (jsOr ((w.config.bind Config.texts).bind Texts.modalSuccessTitle) "Bravo !")

/-- The button label passed to `openModal` by a success branch. -/
def successButton (r : Riddle) (w : World) : String :=
  jsOr r.successButton
    (jsOr ((w.config.bind Config.texts).bind Texts.modalSuccessButton) "Continuer")

/-- The timing statements shared by the five success branches: read `now`, compute the
delta, track `riddle_success`, store `now`. -/
def recordSuccess (riddleId : Nat) (w : World) : World :=
  let now := (dateNow w).1
  let delta := secondsSinceLastSuccess (dateNow w).2
  let d := baseTrackData
    [("riddleId", JsVal.num riddleId), ("secondsSinceLastSuccess", delta.1)] delta.2
  setLastSuccessTime now (track "riddle_success" d.1 d.2)

/-- The error branch of a single-question riddle, up to the message. -/
def recordError (riddleId : Nat) (el : String) (w : World) : World :=
  let d := baseTrackData [("riddleId", JsVal.num riddleId)] (revealMessage el w)
  track "riddle_error" d.1 d.2

/-- Source: the `onclick` of `btnR1Validate` in `initRiddle1`, on the value of `r1Select`. -/
def btnR1Validate (answer : String) (w : World) : World :=
  match findRiddle 1 w with
  | none => w
  | some r1 =>
    if answer = "" then
      revealMessage "r1Message" { w with r1Message := "Choisissez une option." }
    else if r1.correct ≠ some answer then
      recordError 1 "r1Message"
        { incrementErrors w with r1Message := jsOr r1.errorText "Incorrect." }
    else
      let w1 := recordSuccess 1 w
      openModal (successTitle r1 w) (jsOr r1.successText "") (successButton r1 w)
        "screen-riddle2" { w1 with r1Message := "", btnR1ContinueDisplay := "none" }

/-- Source: the `onclick` of `btnR4Validate` in `initRiddle4`. -/
def btnR4Validate (answer : String) (w : World) : World :=
  match findRiddle 4 w with
  | none => w
  | some r4 =>
    if answer = "" then
      revealMessage "r4Message" { w with r4Message := "Choisissez une option." }
    else if r4.correct ≠ some answer then
      recordError 4 "r4Message"
        { incrementErrors w with r4Message := jsOr r4.errorText "Incorrect." }
    else
      let w1 := recordSuccess 4 w
      openModal (successTitle r4 w) (jsOr r4.successText "") (successButton r4 w)
        "screen-riddle5" { w1 with r4Message := "" }

/-- Source: the `onclick` of `btnR5Validate` in `initRiddle5`. -/
def btnR5Validate (answer : String) (w : World) : World :=
  match findRiddle 5 w with
  | none => w
  | some r5 =>
    if answer = "" then
      revealMessage "r5Message" { w with r5Message := "Choisissez une option." }
    else if r5.correct ≠ some answer then
      recordError 5 "r5Message"
        { incrementErrors w with r5Message := jsOr r5.errorText "Incorrect." }
    else
      let w1 := recordSuccess 5 w
      showPreScore
        (showScreen "screen-preScore" { w1 with r5Message := jsOr r5.successText "Bravo !" })

/-- The validation loop of riddles 2 and 3, started at index `i` with `correctCount = acc`:
`answers[i]` is the value of the `i`-th select, `""` when there is none. -/
def countCorrectFrom (questions : List Question) (answers : List String) (i acc : Nat) : Nat :=
  match questions with
  | [] => acc
  | q :: rest =>
    countCorrectFrom rest answers (i + 1)
      (if answers.getD i "" ≠ "" ∧ q.correct = some (answers.getD i "") then acc + 1 else acc)

/-- The value of `correctCount` after the loop. -/
def correctCount (questions : List Question) (answers : List String) : Nat :=
  countCorrectFrom questions answers 0 0

/-- The error branch of a multi-question riddle. -/
def recordMultiError (riddleId : Nat) (el : String) (correct total : Nat) (w : World) : World :=
  let d := baseTrackData
    [("riddleId", JsVal.num riddleId), ("correct", JsVal.num correct),
     ("total", JsVal.num total)] (revealMessage el w)
  track "riddle_error" d.1 d.2

/-- The message of the error branch of a multi-question riddle. -/
def multiErrorText (r : Riddle) (correct total : Nat) : String :=
  jsOr r.errorText "Pas tout bon." ++ " (" ++ toString correct ++ "/" ++ toString total ++ ")"

/-- Source: the `onclick` of `btnR2Validate` in `initRiddle2`. -/
def btnR2Validate (answers : List String) (w : World) : World :=
  match findRiddle 2 w with
  | none => w
  | some r2 =>
    let questions := r2.questions.getD []
    let n := correctCount questions answers
    if n ≠ questions.length then
      recordMultiError 2 "r2Message" n questions.length
        { incrementErrors w with r2Message := multiErrorText r2 n questions.length }
    else
      let w1 := recordSuccess 2 w
      openModal (successTitle r2 w) (jsOr r2.successText "") (successButton r2 w)
        "screen-riddle3" { w1 with r2Message := "" }

/-- Source: the `onclick` of `btnR3Validate` in `initRiddle3`. -/
def btnR3Validate (answers : List String) (w : World) : World :=
  match findRiddle 3 w with
  | none => w
  | some r3 =>
    let questions := r3.questions.getD []
    let n := correctCount questions answers
    if n ≠ questions.length then
      recordMultiError 3 "r3Message" n questions.length
        { incrementErrors w with r3Message := multiErrorText r3 n questions.length }
    else
      let w1 := recordSuccess 3 w
      openModal (successTitle r3 w) (jsOr r3.successText "") (successButton r3 w)
        "screen-riddle4" { w1 with r3Message := "" }

/-- Source: the `onclick` of the hint button of sub-question `i` in `initRiddle2`; the
button exists for `i < questions.length`. -/
def hintBtnClick (i : Nat) (w : World) : World :=
  match findRiddle 2 w with
  | none => w
  | some r2 =>
    if (r2.questions.getD []).length ≤ i then w
    else
      let w1 := { w with
        r2HintShown :=
          if i ∈ w.r2HintShown then w.r2HintShown.erase i else w.r2HintShown ++ [i] }
      if i ∈ w1.usedHints then w1
      else
        let w2 := incrementHints { w1 with usedHints := w1.usedHints ++ [i] }
        let d := baseTrackData [("riddleId", JsVal.num 2), ("questionIndex", JsVal.num i)] w2
        track "hint_used" d.1 d.2

/-! ## Sequences of handler runs -/

/-- The user and timer events of the page. -/
inductive Action where
  | validateCode (value : String)
  | toRiddle1
  | validate1 (answer : String)
  | validate2 (answers : List String)
  | validate3 (answers : List String)
  | validate4 (answer : String)
  | validate5 (answer : String)
  | hint (i : Nat)
  | modalBtn
  | modalBackdrop
  | preScoreBtn
  | scoreContinue
  | postScoreBtn
  | splashTimeout
  deriving DecidableEq, Repr

/-- One handler run.  A handler that throws is abandoned by the browser: the code
handler throws before its first write, so the world is left as it was. -/
def step (a : Action) (w : World) : World :=
  match a with
  | Action.validateCode value =>
    match btnValidateCode value w with
    | Except.ok w1 => w1
    | Except.error _ => w
  | Action.toRiddle1 => showScreen "screen-riddle1" w
  | Action.validate1 answer => btnR1Validate answer w
  | Action.validate2 answers => btnR2Validate answers w
  | Action.validate3 answers => btnR3Validate answers w
  | Action.validate4 answer => btnR4Validate answer w
  | Action.validate5 answer => btnR5Validate answer w
  | Action.hint i => hintBtnClick i w
  | Action.modalBtn => modalBtnClick w
  | Action.modalBackdrop => modalBackdropClick w
  | Action.preScoreBtn => btnPreScoreClick w
  | Action.scoreContinue => showPostScore (showScreen "screen-postScore" w)
  | Action.postScoreBtn => btnPostScoreClick w
  | Action.splashTimeout => hideSplash w

/-- A sequence of handler runs, in order. -/
def run (acts : List Action) (w : World) : World :=
  acts.foldl (fun acc a => step a acc) w

/-- The value `Number(localStorage.getItem("totalHints") || "0")`. -/
def hintsOf (w : World) : Nat := w.storage.totalHints.getD 0

/-- The value `Number(localStorage.getItem("totalErrors") || "0")`. -/
def errorsOf (w : World) : Nat := w.storage.totalErrors.getD 0

/-! ## Sample data -/

/-- A two-question riddle. -/
def sampleQuestions : List Question :=
  [ { label := some "Capitale ?", options := ["Paris", "Lyon"], correct := some "Paris",
      hint := some "Tour Eiffel" },
    { label := none, options := ["1", "2"], correct := some "2", hint := none } ]

/-- A single-question riddle with the given id. -/
def sampleSingle (n : Nat) : Riddle :=
  { id := n, title := none, question := some "Capitale ?", options := ["Paris", "Lyon"],
    correct := some "Paris", questions := none, errorText := none,
    successText := some "Bien vu", successTitle := none, successButton := none }

/-- A multi-question riddle with the given id. -/
def sampleMulti (n : Nat) : Riddle :=
  { id := n, title := none, question := none, options := [], correct := none,
    questions := some sampleQuestions, errorText := none, successText := none,
    successTitle := none, successButton := none }

/-- A configuration with the five riddles. -/
def sampleConfig : Config :=
  { texts := none, validPrefixes := ["ABCD", "WXYZ"],
    riddles := some [sampleSingle 1, sampleMulti 2, sampleMulti 3, sampleSingle 4,
      sampleSingle 5],
    preScorePage := some { title := some "Fin", text := none, button := none },
    postScorePage := none }

/-- The screens of the page, the splash screen being shown. -/
def sampleScreens : List Screen :=
  [ { id := "screen-splash", hidden := false, active := true },
    { id := "screen-code", hidden := true, active := false },
    { id := "screen-instructions", hidden := true, active := false },
    { id := "screen-riddle1", hidden := true, active := false },
    { id := "screen-riddle2", hidden := true, active := false },
    { id := "screen-riddle3", hidden := true, active := false },
    { id := "screen-riddle4", hidden := true, active := false },
    { id := "screen-riddle5", hidden := true, active := false },
    { id := "screen-preScore", hidden := true, active := false },
    { id := "screen-score", hidden := true, active := false },
    { id := "screen-postScore", hidden := true, active := false } ]

/-- A freshly loaded page whose clock reads `t0`, then `t0 + 1`, and so on. -/
def sampleWorld (t0 : Int) : World :=
  { config := some sampleConfig, str := asciiOps, clock := fun k => t0 + k, reads := 0,
    storage := { userCode := none, startTime := none, lastSuccessTime := none,
                 totalErrors := none, totalHints := none },
    screens := sampleScreens, tracked := [], sheet := [], warnings := [],
    scrolledTo := none, codeMessage := "", r1Message := "", r2Message := "",
    r3Message := "", r4Message := "", r5Message := "", btnR1ContinueDisplay := "none",
    usedHints := [], r2HintShown := [],
    modal := { isOpen := false, ariaHidden := some "true", title := "", text := "",
               button := "", btnOnClick := none, backdropOnClick := none },
    scoreTime := "", scoreErrors := "", scoreHints := "",
    preScore := { title := "", titleDisplay := "", text := "", button := "",
                  btnInstalled := false },
    postScore := { title := "", titleDisplay := "", text := "", button := "",
                   btnInstalled := false },
    redirect := none }

/-! ## Values computed by the helpers -/

/-- The value of `Math.floor((now - t) / 1000)` guarded by `if (!t) return null`. -/
def elapsed (t : Option Int) (now : Int) : JsVal :=
  match t with
  | none => JsVal.null
  | some s => JsVal.num ((now - s) / 1000)

/-- The number of clock reads after a guarded read. -/
def readsAfter (t : Option Int) (r : Nat) : Nat :=
  match t with
  | none => r
  | some _ => r + 1

/-- The object built by `baseTrackData(extra)`. -/
def baseData (extra : Obj) (w : World) : Obj :=
  Obj.spread
    [("userCode", JsVal.str (getUserCode w)),
     ("prefix", JsVal.str (getUserPrefix w)),
     ("secondsSinceStart", elapsed (getStartTime w) (w.clock w.reads))] extra

/-! ## Predicates and measures used by the statements -/

/-- The action is a validation of a configured riddle with a wrong answer: for riddles
1, 4 and 5 a non-empty selected value that is not the configured correct value, for
riddles 2 and 3 a sub-question whose selected value is not its configured correct value. -/
def WrongAnswer (w : World) : Action → Prop
  | Action.validate1 a => ∃ r, findRiddle 1 w = some r ∧ a ≠ "" ∧ r.correct ≠ some a
  | Action.validate4 a => ∃ r, findRiddle 4 w = some r ∧ a ≠ "" ∧ r.correct ≠ some a
  | Action.validate5 a => ∃ r, findRiddle 5 w = some r ∧ a ≠ "" ∧ r.correct ≠ some a
  | Action.validate2 answers => ∃ r, findRiddle 2 w = some r ∧
      ∃ i q, (r.questions.getD [])[i]? = some q ∧ q.correct ≠ some (answers.getD i "")
  | Action.validate3 answers => ∃ r, findRiddle 3 w = some r ∧
      ∃ i q, (r.questions.getD [])[i]? = some q ∧ q.correct ≠ some (answers.getD i "")
  | _ => False

/-- The action is a validation of a configured riddle in which every selected value
equals the configured correct value of its (sub-)question. -/
def AllCorrect (w : World) : Action → Prop
  | Action.validate1 a => ∃ r, findRiddle 1 w = some r ∧ r.correct = some a
  | Action.validate4 a => ∃ r, findRiddle 4 w = some r ∧ r.correct = some a
  | Action.validate5 a => ∃ r, findRiddle 5 w = some r ∧ r.correct = some a
  | Action.validate2 answers => ∃ r, findRiddle 2 w = some r ∧
      ∀ i q, (r.questions.getD [])[i]? = some q → q.correct = some (answers.getD i "")
  | Action.validate3 answers => ∃ r, findRiddle 3 w = some r ∧
      ∀ i q, (r.questions.getD [])[i]? = some q → q.correct = some (answers.getD i "")
  | _ => False

/-- Every value selected for a (sub-)question of the riddle is non-empty. -/
def AllSelected (w : World) : Action → Prop
  | Action.validate1 a => a ≠ ""
  | Action.validate4 a => a ≠ ""
  | Action.validate5 a => a ≠ ""
  | Action.validate2 answers => ∀ r, findRiddle 2 w = some r →
      ∀ i, i < (r.questions.getD []).length → answers.getD i "" ≠ ""
  | Action.validate3 answers => ∀ r, findRiddle 3 w = some r →
      ∀ i, i < (r.questions.getD []).length → answers.getD i "" ≠ ""
  | _ => True

/-- The number of tracked `riddle_success` events. -/
def successCount (w : World) : Nat :=
  w.tracked.countP (fun e => decide (e.name = "riddle_success"))

/-- The run from `w` to `w1` took a success branch once: one more `riddle_success` event,
`lastSuccessTime` set to the first clock reading of the run, `totalErrors` as before. -/
def SuccessOnce (w w1 : World) : Prop :=
  successCount w1 = successCount w + 1 ∧
  w1.storage.lastSuccessTime = some (w.clock w.reads) ∧
  w1.storage.totalErrors = w.storage.totalErrors

/-- A page whose riddle 1 is configured with the empty string as correct value. -/
def emptyCorrectWorld : World :=
  { sampleWorld 0 with
    config := some
      { sampleConfig with
        riddles := some [{ sampleSingle 1 with options := ["", "Paris"], correct := some "" }] } }

/-- The sub-question indices of the hint clicks of a sequence, in order. -/
def hintIndices : List Action → List Nat
  | [] => []
  | Action.hint i :: rest => i :: hintIndices rest
  | _ :: rest => hintIndices rest

/-- The condition under which the code handler reaches its accept branch. -/
def accepted (w : World) (value : String) : Bool :=
  match w.config with
  | none => false
  | some cfg =>
    decide (¬ (w.str.toUpperCase (w.str.slice (w.str.trim value) 0 4) = "" ∨
        w.str.length (w.str.toUpperCase (w.str.slice (w.str.trim value) 0 4)) < 4) ∧
      w.str.toUpperCase (w.str.slice (w.str.trim value) 0 4) ∈ cfg.validPrefixes)

/-- The condition under which a single-question handler reaches its success branch. -/
def succeedsSingle (n : Nat) (answer : String) (w : World) : Bool :=
  match findRiddle n w with
  | none => false
  | some r => decide (answer ≠ "" ∧ r.correct = some answer)

/-- The condition under which a multi-question handler reaches its success branch. -/
def succeedsMulti (n : Nat) (answers : List String) (w : World) : Bool :=
  match findRiddle n w with
  | none => false
  | some r =>
    decide (correctCount (r.questions.getD []) answers = (r.questions.getD []).length)

/-- The handler run reaches the accept branch of the code handler or the success branch
of a riddle handler. -/
def writesLastSuccess (w : World) : Action → Bool
  | Action.validateCode value => accepted w value
  | Action.validate1 answer => succeedsSingle 1 answer w
  | Action.validate2 answers => succeedsMulti 2 answers w
  | Action.validate3 answers => succeedsMulti 3 answers w
  | Action.validate4 answer => succeedsSingle 4 answer w
  | Action.validate5 answer => succeedsSingle 5 answer w
  | _ => false

/-- The handler run reaches the success branch of a riddle handler. -/
def reachesSuccess (w : World) : Action → Bool
  | Action.validateCode _ => false
  | a => writesLastSuccess w a

/-- No handler run of the sequence reaches an accept or success branch. -/
def quietRun : World → List Action → Bool
  | _, [] => true
  | w, a :: rest => !writesLastSuccess w a && quietRun (step a w) rest

/-- The tracked `riddle_success` events, in order. -/
def successEvents (w : World) : List Event :=
  w.tracked.filter (fun e => decide (e.name = "riddle_success"))

/-- The handler runs that the frame part of C5 lists: a wrong answer, no answer, a hint
reveal, a screen change, the score display. -/
def ListedQuiet (w : World) (a : Action) : Prop :=
  WrongAnswer w a ∨ a = Action.validate1 "" ∨ a = Action.validate4 "" ∨
  a = Action.validate5 "" ∨ (∃ i, a = Action.hint i) ∨ a = Action.toRiddle1 ∨
  a = Action.modalBtn ∨ a = Action.modalBackdrop ∨ a = Action.splashTimeout ∨
  a = Action.scoreContinue ∨ a = Action.preScoreBtn

/-- A page whose clock always reads `now` and whose recorded start time is `start`. -/
def frozenWorld (start : Option Int) (now : Int) : World :=
  { sampleWorld 0 with
    clock := fun _ => now,
    storage := { userCode := some "ABCD1234", startTime := start, lastSuccessTime := start,
                 totalErrors := some 3, totalHints := some 1 } }

/-- A page whose start time is 1000 and whose clock reads 60999, then 61000, and so on. -/
def tickingWorld : World :=
  { sampleWorld 60999 with
    storage := { userCode := some "ABCD1234", startTime := some 1000,
                 lastSuccessTime := some 1000, totalErrors := some 0, totalHints := some 0 } }

/-- The riddle a validation action belongs to. -/
def riddleOf : Action → Option Nat
  | Action.validate1 _ => some 1
  | Action.validate2 _ => some 2
  | Action.validate3 _ => some 3
  | Action.validate4 _ => some 4
  | Action.validate5 _ => some 5
  | _ => none

/-- The id of the screen of riddle `n`. -/
def riddleScreen (n : Nat) : String := "screen-riddle" ++ toString n

/-- The text of the message element of riddle `n`. -/
def riddleMessage (n : Nat) (w : World) : String :=
  match n with
  | 1 => w.r1Message
  | 2 => w.r2Message
  | 3 => w.r3Message
  | 4 => w.r4Message
  | _ => w.r5Message

/-- The four-character slice of the trimmed input, upper-cased, as the code handler
computes it. -/
def codePrefix (w : World) (value : String) : String :=
  w.str.toUpperCase (w.str.slice (w.str.trim value) 0 4)

/-- The handler run reaches the accept branch of the code handler. -/
def acceptsCode (w : World) : Action → Bool
  | Action.validateCode value => accepted w value
  | _ => false

/-- Both timestamps are recorded, the last success is not earlier than the start, and it
is not later than the next clock reading. -/
def Chained (w : World) : Prop :=
  ∃ s l, w.storage.startTime = some s ∧ w.storage.lastSuccessTime = some l ∧ s ≤ l ∧
    l ≤ w.clock w.reads

/-! ## Page load: `initUI` and `main` -/

/-- Source: `initRiddle1`, its writes to the modelled elements; the handler it installs is
`btnR1Validate`. -/
def initRiddle1 (w : World) : World :=
  match findRiddle 1 w with
  | none => w
  | some _ => { w with btnR1ContinueDisplay := "none", r1Message := "" }

/-- Source: `initRiddle2`; the container is rebuilt with every hint hidden and
`usedHints` is a new empty set. -/
def initRiddle2 (w : World) : World :=
  match findRiddle 2 w with
  | none => w
  | some _ => { w with r2Message := "", usedHints := [], r2HintShown := [] }

/-- Source: `initRiddle3`. -/
def initRiddle3 (w : World) : World :=
  match findRiddle 3 w with
  | none => w
  | some _ => { w with r3Message := "" }

/-- Source: `initRiddle4`. -/
def initRiddle4 (w : World) : World :=
  match findRiddle 4 w with
  | none => w
  | some _ => { w with r4Message := "" }

/-- Source: `initRiddle5`. -/
def initRiddle5 (w : World) : World :=
  match findRiddle 5 w with
  | none => w
  | some _ => { w with r5Message := "" }

/-- Source: `initUI`, its writes to the modelled elements.  It is the only place where
the script registers the listeners of `btnValidateCode`, `btnToRiddle1`,
`btnScoreContinue`, the riddle buttons and the splash timer. -/
def initUI (w : World) : World :=
  initRiddle5 (initRiddle4 (initRiddle3 (initRiddle2 (initRiddle1 w))))

/-- The page after `main`: the world, whether `initUI` has run (so that its listeners are
registered), and what `console.error` received. -/
structure Page where
  world : World
  uiReady : Bool
  errors : List String

/-- Source: `main`.  `load` is the outcome of `await loadConfig()`: the parsed document
(`none` for the JSON value `null`) or the error thrown by the fetch. -/
def main (load : Except String (Option Config)) (w : World) : Page :=
  match load with
  | Except.ok cfg =>
    { world := initUI { showScreen "screen-splash" w with config := cfg },
      uiReady := true, errors := [] }
  | Except.error e =>
    { world := showScreen "screen-code" (showScreen "screen-splash" w),
      uiReady := false, errors := [e] }

/-- A click on `btnValidateCode` with `value` typed in `codeInput`: the listener runs
when it is registered, and nothing happens otherwise. -/
def clickValidateCode (value : String) (p : Page) : Except String Page :=
  if p.uiReady then
    match btnValidateCode value p.world with
    | Except.ok w1 => Except.ok { p with world := w1 }
    | Except.error e => Except.error e
  else Except.ok p

/-- Successive clicks on `btnValidateCode`; a click whose listener throws leaves the page
as it was. -/
def clicksValidateCode : List String → Page → Page
  | [], p => p
  | value :: rest, p =>
    match clickValidateCode value p with
    | Except.ok p1 => clicksValidateCode rest p1
    | Except.error _ => clicksValidateCode rest p

/-- The sample page as the script finds it: `CONFIG` is `null`. -/
def freshWorld : World :=
  { sampleWorld 0 with config := none }

/-! ## The count of correct sub-answers, as specified -/

/-- The count as the specification words it: the number of sub-questions whose selected
value is non-empty and equals the configured correct value, the selected value of
sub-question `i` being `answers[i]` (`""` when there is none). -/
def specCorrectCount (questions : List Question) (answers : List String) : Nat :=
  questions.enum.countP
    (fun p => decide (answers.getD p.1 "" ≠ "" ∧ p.2.correct = some (answers.getD p.1 "")))

/-- No handler run of the sequence reaches the accept branch of the code handler. -/
def noAcceptRun : World → List Action → Bool
  | _, [] => true
  | w, a :: rest => !acceptsCode w a && noAcceptRun (step a w) rest

/-! ## Normal forms of the helpers -/

theorem secondsSinceStart_eq (w : World) :
    secondsSinceStart w =
      (elapsed (getStartTime w) (w.clock w.reads),
       { w with reads := readsAfter (getStartTime w) w.reads }) := by
  unfold secondsSinceStart elapsed readsAfter
  split <;> rfl

theorem secondsSinceLastSuccess_eq (w : World) :
    secondsSinceLastSuccess w =
      (elapsed (getLastSuccessTime w) (w.clock w.reads),
       { w with reads := readsAfter (getLastSuccessTime w) w.reads }) := by
  unfold secondsSinceLastSuccess elapsed readsAfter
  split <;> rfl

theorem baseTrackData_eq (extra : Obj) (w : World) :
    baseTrackData extra w =
      (baseData extra w, { w with reads := readsAfter (getStartTime w) w.reads }) := by
  unfold baseTrackData baseData
  rw [secondsSinceStart_eq]

theorem track_eq (eventName : String) (data : Obj) (w : World) :
    track eventName data w =
      { w with
        reads := w.reads + 1,
        sheet := w.sheet ++
          [Obj.spread [("eventName", JsVal.str eventName), ("ts", JsVal.num (w.clock w.reads))]
            data],
        tracked := w.tracked ++ [⟨eventName, data⟩] } := rfl

theorem showScreen_storage (screenId : String) (w : World) :
    (showScreen screenId w).storage = w.storage := by
  unfold showScreen
  simp only [baseTrackData_eq, track_eq]
  split <;> rfl

theorem showScreen_screens (screenId : String) (w : World) :
    (showScreen screenId w).screens = w.screens.map (toggleScreen screenId) := by
  unfold showScreen
  simp only [baseTrackData_eq, track_eq]
  split <;> rfl

theorem toggleScreen_visible (screenId : String) (s : Screen) :
    (toggleScreen screenId s).visible = true ↔ s.id = screenId := by
  unfold toggleScreen Screen.visible
  by_cases h : s.id = screenId <;> simp [h]

theorem toggleScreen_id (screenId : String) (s : Screen) :
    (toggleScreen screenId s).id = s.id := by
  unfold toggleScreen
  split <;> rfl

/-! ## Code validation -/

/-- C1: when the trimmed input has an upper-cased four-character slice of length 4 that is
in `validPrefixes`, the code handler returns normally, stores the trimmed input as
`userCode`, the same clock reading as `startTime` and `lastSuccessTime`, `0` as
`totalErrors` and `totalHints`, and leaves exactly the screens named `screen-instructions`
visible, the set of screens being the same. -/
theorem C1_code_accepted (w : World) (cfg : Config) (value : String)
    (hcfg : w.config = some cfg)
    (hlen : w.str.length (w.str.toUpperCase (w.str.slice (w.str.trim value) 0 4)) = 4)
    (hmem : w.str.toUpperCase (w.str.slice (w.str.trim value) 0 4) ∈ cfg.validPrefixes) :
    ∃ w1, btnValidateCode value w = Except.ok w1 ∧
      w1.storage =
        { userCode := some (w.str.trim value), startTime := some (w.clock w.reads),
          lastSuccessTime := some (w.clock w.reads), totalErrors := some 0,
          totalHints := some 0 } ∧
      w1.screens.map Screen.id = w.screens.map Screen.id ∧
      ∀ s ∈ w1.screens, s.visible = true ↔ s.id = "screen-instructions" := by
  have hne : w.str.toUpperCase (w.str.slice (w.str.trim value) 0 4) ≠ "" := by
    intro h
    rw [h, w.str.length_empty] at hlen
    omega
  have hguard : ¬ (w.str.toUpperCase (w.str.slice (w.str.trim value) 0 4) = "" ∨
      w.str.length (w.str.toUpperCase (w.str.slice (w.str.trim value) 0 4)) < 4) := by
    rintro (h | h)
    · exact hne h
    · omega
  unfold btnValidateCode
  simp only [hguard, if_false, hcfg, hmem, not_true_eq_false]
  refine ⟨_, rfl, ?_, ?_, ?_⟩
  · rw [showScreen_storage, track_eq, baseTrackData_eq]
    rfl
  · rw [showScreen_screens, track_eq, baseTrackData_eq]
    simp [Function.comp_def, toggleScreen_id, dateNow]
  · rw [showScreen_screens, track_eq, baseTrackData_eq]
    intro s hs
    simp only [dateNow, List.mem_map] at hs
    obtain ⟨s0, _, rfl⟩ := hs
    rw [toggleScreen_visible, toggleScreen_id]

/-- Witness for C1: the input `" abcd1234 "` on the sample page, clock at `1000`. -/
theorem C1_code_accepted_witness :
    (sampleWorld 1000).config = some sampleConfig ∧
    asciiOps.toUpperCase (asciiOps.slice (asciiOps.trim " abcd1234 ") 0 4) = "ABCD" ∧
    ∃ w1, btnValidateCode " abcd1234 " (sampleWorld 1000) = Except.ok w1 ∧
      w1.storage =
        { userCode := some "abcd1234", startTime := some 1000,
          lastSuccessTime := some 1000, totalErrors := some 0, totalHints := some 0 } ∧
      w1.screens.map Screen.id = sampleScreens.map Screen.id ∧
      ∀ s ∈ w1.screens, s.visible = true ↔ s.id = "screen-instructions" :=
  ⟨rfl, by decide,
    C1_code_accepted (sampleWorld 1000) sampleConfig " abcd1234 " rfl (by decide) (by decide)⟩

/-! ## Wrong answers -/

theorem countCorrectFrom_le (questions : List Question) (answers : List String) (i acc : Nat) :
    countCorrectFrom questions answers i acc ≤ acc + questions.length := by
  induction questions generalizing i acc with
  | nil => simp [countCorrectFrom]
  | cons q rest ih =>
    unfold countCorrectFrom
    refine le_trans (ih _ _) ?_
    rw [List.length_cons]
    split <;> omega

theorem countCorrectFrom_lt (questions : List Question) (answers : List String) (i acc : Nat)
    (j : Nat) (q : Question) (hq : questions[j]? = some q)
    (hwrong : q.correct ≠ some (answers.getD (i + j) "")) :
    countCorrectFrom questions answers i acc < acc + questions.length := by
  induction questions generalizing i acc j with
  | nil => simp at hq
  | cons q0 rest ih =>
    unfold countCorrectFrom
    cases j with
    | zero =>
      simp at hq
      subst hq
      have h0 : ¬ (answers.getD i "" ≠ "" ∧ q0.correct = some (answers.getD i "")) := by
        rintro ⟨_, h⟩
        exact hwrong (by simpa using h)
      rw [if_neg h0]
      have := countCorrectFrom_le rest answers (i + 1) acc
      simp
      omega
    | succ k =>
      simp at hq
      have hw : q.correct ≠ some (answers.getD (i + 1 + k) "") := by
        have : i + 1 + k = i + (k + 1) := by omega
        rw [this]
        exact hwrong
      have := ih (i + 1)
        (if answers.getD i "" ≠ "" ∧ q0.correct = some (answers.getD i "") then acc + 1
          else acc) k hq hw
      refine lt_of_lt_of_le this ?_
      rw [List.length_cons]
      split <;> omega

theorem correctCount_ne_of_wrong (questions : List Question) (answers : List String)
    (j : Nat) (q : Question) (hq : questions[j]? = some q)
    (hwrong : q.correct ≠ some (answers.getD j "")) :
    correctCount questions answers ≠ questions.length := by
  have := countCorrectFrom_lt questions answers 0 0 j q hq (by simpa using hwrong)
  unfold correctCount
  omega

theorem recordError_eq (riddleId : Nat) (el : String) (w : World) :
    recordError riddleId el w =
      { w with
        scrolledTo := some el,
        reads := readsAfter (getStartTime w) w.reads + 1,
        sheet := w.sheet ++
          [Obj.spread [("eventName", JsVal.str "riddle_error"),
              ("ts", JsVal.num (w.clock (readsAfter (getStartTime w) w.reads)))]
            (baseData [("riddleId", JsVal.num riddleId)] w)],
        tracked := w.tracked ++
          [⟨"riddle_error", baseData [("riddleId", JsVal.num riddleId)] w⟩] } := by
  unfold recordError
  simp only [baseTrackData_eq, track_eq]
  rfl

theorem recordMultiError_eq (riddleId : Nat) (el : String) (correct total : Nat) (w : World) :
    recordMultiError riddleId el correct total w =
      { w with
        scrolledTo := some el,
        reads := readsAfter (getStartTime w) w.reads + 1,
        sheet := w.sheet ++
          [Obj.spread [("eventName", JsVal.str "riddle_error"),
              ("ts", JsVal.num (w.clock (readsAfter (getStartTime w) w.reads)))]
            (baseData [("riddleId", JsVal.num riddleId), ("correct", JsVal.num correct),
              ("total", JsVal.num total)] w)],
        tracked := w.tracked ++
          [⟨"riddle_error", baseData [("riddleId", JsVal.num riddleId),
              ("correct", JsVal.num correct), ("total", JsVal.num total)] w⟩] } := by
  unfold recordMultiError
  simp only [baseTrackData_eq, track_eq]
  rfl

/-- C2: a validation of riddle 1 to 5 with a wrong answer stores `totalErrors + 1`
(an absent counter counting as 0), tracks exactly one event, named `riddle_error`, and
leaves `lastSuccessTime`, the modal and the screens as they were. -/
theorem C2_wrong_answer (w : World) (a : Action) (h : WrongAnswer w a) :
    (step a w).storage.totalErrors = some (errorsOf w + 1) ∧
    (step a w).storage.lastSuccessTime = w.storage.lastSuccessTime ∧
    (∃ e, (step a w).tracked = w.tracked ++ [e] ∧ e.name = "riddle_error") ∧
    (step a w).modal = w.modal ∧
    (step a w).screens = w.screens := by
  cases a <;> simp only [WrongAnswer] at h
  case validate1 ans =>
    obtain ⟨r, hr, hne, hc⟩ := h
    simp only [step, btnR1Validate, hr, hne, if_false, hc, ne_eq, not_false_eq_true,
      if_true, recordError_eq]
    exact ⟨rfl, rfl, ⟨_, rfl, rfl⟩, rfl, rfl⟩
  case validate4 ans =>
    obtain ⟨r, hr, hne, hc⟩ := h
    simp only [step, btnR4Validate, hr, hne, if_false, hc, ne_eq, not_false_eq_true,
      if_true, recordError_eq]
    exact ⟨rfl, rfl, ⟨_, rfl, rfl⟩, rfl, rfl⟩
  case validate5 ans =>
    obtain ⟨r, hr, hne, hc⟩ := h
    simp only [step, btnR5Validate, hr, hne, if_false, hc, ne_eq, not_false_eq_true,
      if_true, recordError_eq]
    exact ⟨rfl, rfl, ⟨_, rfl, rfl⟩, rfl, rfl⟩
  case validate2 answers =>
    obtain ⟨r, hr, i, q, hq, hc⟩ := h
    have hn := correctCount_ne_of_wrong _ answers i q hq hc
    simp only [step, btnR2Validate, hr, hn, ne_eq, not_false_eq_true, if_true,
      recordMultiError_eq]
    exact ⟨rfl, rfl, ⟨_, rfl, rfl⟩, rfl, rfl⟩
  case validate3 answers =>
    obtain ⟨r, hr, i, q, hq, hc⟩ := h
    have hn := correctCount_ne_of_wrong _ answers i q hq hc
    simp only [step, btnR3Validate, hr, hn, ne_eq, not_false_eq_true, if_true,
      recordMultiError_eq]
    exact ⟨rfl, rfl, ⟨_, rfl, rfl⟩, rfl, rfl⟩

/-- Witness for C2: riddle 1 expects `"Paris"`, the user selects `"Lyon"`. -/
theorem C2_wrong_answer_witness :
    WrongAnswer (sampleWorld 0) (Action.validate1 "Lyon") ∧
    (step (Action.validate1 "Lyon") (sampleWorld 0)).storage.totalErrors = some 1 ∧
    (step (Action.validate1 "Lyon") (sampleWorld 0)).storage.lastSuccessTime = none ∧
    (∃ e, (step (Action.validate1 "Lyon") (sampleWorld 0)).tracked = [] ++ [e] ∧
      e.name = "riddle_error") ∧
    (step (Action.validate1 "Lyon") (sampleWorld 0)).modal = (sampleWorld 0).modal ∧
    (step (Action.validate1 "Lyon") (sampleWorld 0)).screens = sampleScreens :=
  ⟨⟨sampleSingle 1, rfl, by decide, by decide⟩,
    C2_wrong_answer (sampleWorld 0) (Action.validate1 "Lyon")
      ⟨sampleSingle 1, rfl, by decide, by decide⟩⟩

/-! ## Right answers -/

theorem countCorrectFrom_all (questions : List Question) (answers : List String) (i acc : Nat)
    (h : ∀ j q, questions[j]? = some q →
      answers.getD (i + j) "" ≠ "" ∧ q.correct = some (answers.getD (i + j) "")) :
    countCorrectFrom questions answers i acc = acc + questions.length := by
  induction questions generalizing i acc with
  | nil => simp [countCorrectFrom]
  | cons q0 rest ih =>
    unfold countCorrectFrom
    have h0 := h 0 q0 (by simp)
    rw [Nat.add_zero] at h0
    rw [if_pos h0, ih (i + 1) (acc + 1), List.length_cons]
    · omega
    · intro j q hq
      have := h (j + 1) q (by simpa using hq)
      have e : i + (j + 1) = i + 1 + j := by omega
      rwa [e] at this

theorem recordSuccess_eq (riddleId : Nat) (w : World) :
    recordSuccess riddleId w =
      { w with
        reads := readsAfter (getStartTime w) (readsAfter (getLastSuccessTime w) (w.reads + 1)) + 1,
        storage := { w.storage with lastSuccessTime := some (w.clock w.reads) },
        sheet := w.sheet ++
          [Obj.spread [("eventName", JsVal.str "riddle_success"),
              ("ts", JsVal.num (w.clock
                (readsAfter (getStartTime w) (readsAfter (getLastSuccessTime w) (w.reads + 1)))))]
            (baseData [("riddleId", JsVal.num riddleId),
              ("secondsSinceLastSuccess",
                elapsed (getLastSuccessTime w) (w.clock (w.reads + 1)))]
              { w with reads := readsAfter (getLastSuccessTime w) (w.reads + 1) })],
        tracked := w.tracked ++
          [⟨"riddle_success",
            baseData [("riddleId", JsVal.num riddleId),
              ("secondsSinceLastSuccess",
                elapsed (getLastSuccessTime w) (w.clock (w.reads + 1)))]
              { w with reads := readsAfter (getLastSuccessTime w) (w.reads + 1) }⟩] } := by
  unfold recordSuccess
  simp only [secondsSinceLastSuccess_eq, baseTrackData_eq, track_eq, dateNow,
    setLastSuccessTime]
  rfl

theorem showScreen_eq (screenId : String) (w : World) :
    showScreen screenId w =
      { w with
        screens := w.screens.map (toggleScreen screenId),
        warnings :=
          if w.screens.any (fun s => decide (s.id = screenId)) then w.warnings
          else w.warnings ++ ["Écran introuvable : " ++ screenId],
        reads := readsAfter (getStartTime w) w.reads + 1,
        sheet := w.sheet ++
          [Obj.spread [("eventName", JsVal.str "screen_view"),
              ("ts", JsVal.num (w.clock (readsAfter (getStartTime w) w.reads)))]
            (baseData [("screen", JsVal.str screenId)] w)],
        tracked := w.tracked ++ [⟨"screen_view", baseData [("screen", JsVal.str screenId)] w⟩] } := by
  unfold showScreen
  simp only [baseTrackData_eq, track_eq]
  by_cases h : w.screens.any (fun s => decide (s.id = screenId)) = true
  · simp only [h, if_true]
    rfl
  · simp only [h, if_false]
    rfl

theorem successCount_append_success (w : World) (d : Obj) (l : List Event)
    (h : l = w.tracked ++ [⟨"riddle_success", d⟩]) :
    l.countP (fun e => decide (e.name = "riddle_success")) = successCount w + 1 := by
  subst h
  simp [successCount, List.countP_append]

/-- C3, as amended: a validation of riddle 1 to 5 in which every selected value is
non-empty and equals the configured correct value tracks exactly one more `riddle_success`
event, stores the first clock reading of the run as `lastSuccessTime` and leaves
`totalErrors` as it was. -/
theorem C3_all_correct_selected (w : World) (a : Action)
    (hc : AllCorrect w a) (hs : AllSelected w a) :
    SuccessOnce w (step a w) := by
  cases a <;> simp only [AllCorrect] at hc
  case validate1 ans =>
    obtain ⟨r, hr, hcor⟩ := hc
    have hne : ans ≠ "" := hs
    simp only [step, btnR1Validate, hr, hne, if_false, hcor, ne_eq, not_true_eq_false,
      recordSuccess_eq, openModal]
    exact ⟨successCount_append_success w _ _ rfl, rfl, rfl⟩
  case validate4 ans =>
    obtain ⟨r, hr, hcor⟩ := hc
    have hne : ans ≠ "" := hs
    simp only [step, btnR4Validate, hr, hne, if_false, hcor, ne_eq, not_true_eq_false,
      recordSuccess_eq, openModal]
    exact ⟨successCount_append_success w _ _ rfl, rfl, rfl⟩
  case validate5 ans =>
    obtain ⟨r, hr, hcor⟩ := hc
    have hne : ans ≠ "" := hs
    simp only [step, btnR5Validate, hr, hne, if_false, hcor, ne_eq, not_true_eq_false,
      recordSuccess_eq, showScreen_eq, showPreScore]
    refine ⟨?_, ?_, ?_⟩
    · unfold successCount
      split <;> simp [List.countP_append]
    · split <;> rfl
    · split <;> rfl
  case validate2 answers =>
    obtain ⟨r, hr, hcor⟩ := hc
    have hsel := hs r hr
    have hn : correctCount (r.questions.getD []) answers = (r.questions.getD []).length := by
      unfold correctCount
      rw [countCorrectFrom_all, Nat.zero_add]
      intro j q hq
      rw [Nat.zero_add]
      have hj : j < (r.questions.getD []).length := by
        by_contra hge
        rw [List.getElem?_eq_none (by omega)] at hq
        cases hq
      exact ⟨hsel j hj, hcor j q hq⟩
    simp only [step, btnR2Validate, hr, hn, ne_eq, not_true_eq_false, if_false,
      recordSuccess_eq, openModal]
    exact ⟨successCount_append_success w _ _ rfl, rfl, rfl⟩
  case validate3 answers =>
    obtain ⟨r, hr, hcor⟩ := hc
    have hsel := hs r hr
    have hn : correctCount (r.questions.getD []) answers = (r.questions.getD []).length := by
      unfold correctCount
      rw [countCorrectFrom_all, Nat.zero_add]
      intro j q hq
      rw [Nat.zero_add]
      have hj : j < (r.questions.getD []).length := by
        by_contra hge
        rw [List.getElem?_eq_none (by omega)] at hq
        cases hq
      exact ⟨hsel j hj, hcor j q hq⟩
    simp only [step, btnR3Validate, hr, hn, ne_eq, not_true_eq_false, if_false,
      recordSuccess_eq, openModal]
    exact ⟨successCount_append_success w _ _ rfl, rfl, rfl⟩

/-- Witness for C3 as amended: both sub-questions of riddle 2 answered correctly. -/
theorem C3_all_correct_selected_witness :
    AllCorrect (sampleWorld 0) (Action.validate2 ["Paris", "2"]) ∧
    AllSelected (sampleWorld 0) (Action.validate2 ["Paris", "2"]) ∧
    SuccessOnce (sampleWorld 0) (step (Action.validate2 ["Paris", "2"]) (sampleWorld 0)) :=
  have hc : AllCorrect (sampleWorld 0) (Action.validate2 ["Paris", "2"]) :=
    ⟨sampleMulti 2, rfl, by
      intro i q hq
      match i, hq with
      | 0, hq => cases hq; rfl
      | 1, hq => cases hq; rfl
      | (k + 2), hq => cases hq⟩
  have hs : AllSelected (sampleWorld 0) (Action.validate2 ["Paris", "2"]) := by
    intro r hr i hi
    cases hr
    match i, hi with
    | 0, _ => decide
    | 1, _ => decide
    | (k + 2), hi => exact absurd hi (by simp [sampleMulti, sampleQuestions])
  ⟨hc, hs, C3_all_correct_selected (sampleWorld 0) (Action.validate2 ["Paris", "2"]) hc hs⟩

/-- Counterexample to C3 as stated: riddle 1 is configured with the empty string as
correct value and the selected value is the empty string, so the selected value equals the
configured one, yet the handler takes the "choose an option" branch: no `riddle_success`
event is tracked and `lastSuccessTime` is not written. -/
theorem C3_counterexample :
    AllCorrect emptyCorrectWorld (Action.validate1 "") ∧
    (step (Action.validate1 "") emptyCorrectWorld).tracked = [] ∧
    (step (Action.validate1 "") emptyCorrectWorld).storage.lastSuccessTime = none ∧
    (step (Action.validate1 "") emptyCorrectWorld).r1Message = "Choisissez une option." ∧
    ¬ SuccessOnce emptyCorrectWorld (step (Action.validate1 "") emptyCorrectWorld) := by
  refine ⟨⟨_, rfl, rfl⟩, rfl, rfl, rfl, ?_⟩
  intro h
  have h2 := h.2.1
  exact absurd h2 (by decide)

/-! ## What every handler leaves alone -/

theorem showScore_frame (w : World) :
    (showScore w).config = w.config ∧ (showScore w).usedHints = w.usedHints ∧
    (showScore w).storage = w.storage ∧ (showScore w).clock = w.clock ∧
    (showScore w).screens = w.screens := by
  unfold showScore
  simp only [baseTrackData_eq, track_eq, dateNow]
  split <;> exact ⟨rfl, rfl, rfl, rfl, rfl⟩

theorem btnValidateCode_frame (value : String) (w w1 : World)
    (h : btnValidateCode value w = Except.ok w1) :
    w1.config = w.config ∧ w1.usedHints = w.usedHints ∧ w1.clock = w.clock := by
  unfold btnValidateCode at h
  simp only [baseTrackData_eq, track_eq, showScreen_eq, dateNow] at h
  split at h
  · cases h
    exact ⟨rfl, rfl, rfl⟩
  · split at h
    · cases h
    · split at h <;> cases h <;> exact ⟨rfl, rfl, rfl⟩

theorem step_frame (a : Action) (w : World) :
    (step a w).config = w.config ∧ (step a w).clock = w.clock ∧
    ((∀ i, a ≠ Action.hint i) → (step a w).usedHints = w.usedHints) := by
  cases a
  case validateCode value =>
    simp only [step]
    split
    · next w1 h =>
      have := btnValidateCode_frame value w w1 h
      exact ⟨this.1, this.2.2, fun _ => this.2.1⟩
    · exact ⟨rfl, rfl, fun _ => rfl⟩
  case hint i =>
    refine ⟨?_, ?_, fun h => absurd rfl (h i)⟩
    · simp only [step, hintBtnClick, baseTrackData_eq, track_eq, incrementHints]
      repeat' split
      all_goals rfl
    · simp only [step, hintBtnClick, baseTrackData_eq, track_eq, incrementHints]
      repeat' split
      all_goals rfl
  case preScoreBtn =>
    simp only [step, btnPreScoreClick]
    split
    · have h1 := showScore_frame (showScreen "screen-score" w)
      rw [showScreen_eq] at h1
      rw [showScreen_eq]
      exact ⟨h1.1, h1.2.2.2.1, fun _ => h1.2.1⟩
    · exact ⟨rfl, rfl, fun _ => rfl⟩
  all_goals
    simp only [step, btnR1Validate, btnR2Validate, btnR3Validate, btnR4Validate, btnR5Validate,
      modalBtnClick, modalBackdropClick, modalClose, btnPostScoreClick, hideSplash,
      showPreScore, showPostScore, recordSuccess_eq, recordError_eq, recordMultiError_eq,
      showScreen_eq, openModal, baseTrackData_eq, track_eq, revealMessage, incrementErrors]
    repeat' split
    all_goals first
      | exact ⟨rfl, rfl, fun _ => rfl⟩
      | exact ⟨trivial, trivial, fun _ => trivial⟩

/-! ## Hints of riddle 2 -/

theorem hintIndices_append (l1 l2 : List Action) :
    hintIndices (l1 ++ l2) = hintIndices l1 ++ hintIndices l2 := by
  induction l1 with
  | nil => rfl
  | cons a rest ih =>
    cases a <;> simp [hintIndices, ih]

theorem run_append (l1 l2 : List Action) (w : World) :
    run (l1 ++ l2) w = run l2 (run l1 w) := by
  simp [run, List.foldl_append]

theorem run_cons (a : Action) (rest : List Action) (w : World) :
    run (a :: rest) w = run rest (step a w) := rfl

theorem findRiddle_congr (n : Nat) (w w1 : World) (h : w1.config = w.config) :
    findRiddle n w1 = findRiddle n w := by
  unfold findRiddle
  rw [h]

theorem hintBtnClick_hints (i : Nat) (w : World) (r2 : Riddle)
    (hr : findRiddle 2 w = some r2) (hi : i < (r2.questions.getD []).length) :
    hintsOf (hintBtnClick i w) = hintsOf w + (if i ∈ w.usedHints then 0 else 1) ∧
    ∀ j, j ∈ (hintBtnClick i w).usedHints ↔ j ∈ w.usedHints ∨ j = i := by
  have hlen : ¬ (r2.questions.getD []).length ≤ i := by omega
  by_cases hu : i ∈ w.usedHints
  · simp only [hintBtnClick, hr, hlen, if_false, hu, if_true, hintsOf, Nat.add_zero, true_and]
    intro j
    constructor
    · exact fun h => Or.inl h
    · rintro (h | h)
      · exact h
      · exact h ▸ hu
  · simp only [hintBtnClick, hr, hlen, if_false, hu, baseTrackData_eq, track_eq,
      incrementHints, hintsOf]
    refine ⟨rfl, ?_⟩
    intro j
    simp

theorem run_usedHints (acts : List Action) (w : World) (r2 : Riddle)
    (hr : findRiddle 2 w = some r2)
    (hvalid : ∀ i ∈ hintIndices acts, i < (r2.questions.getD []).length) :
    ∀ j, j ∈ (run acts w).usedHints ↔ j ∈ w.usedHints ∨ j ∈ hintIndices acts := by
  induction acts generalizing w with
  | nil => intro j; simp [run, hintIndices]
  | cons a rest ih =>
    intro j
    rw [run_cons]
    have hr1 : findRiddle 2 (step a w) = some r2 := by
      rw [findRiddle_congr 2 w (step a w) (step_frame a w).1]
      exact hr
    by_cases ha : ∃ i, a = Action.hint i
    · obtain ⟨i, rfl⟩ := ha
      have hi : i < (r2.questions.getD []).length := hvalid i (by simp [hintIndices])
      have hrest : ∀ k ∈ hintIndices rest, k < (r2.questions.getD []).length :=
        fun k hk => hvalid k (by simp [hintIndices, hk])
      rw [ih (step (Action.hint i) w) hr1 hrest j]
      have := (hintBtnClick_hints i w r2 hr hi).2 j
      simp only [step, hintIndices, List.mem_cons]
      rw [this]
      tauto
    · have hne : ∀ i, a ≠ Action.hint i := fun i h => ha ⟨i, h⟩
      have hidx : hintIndices (a :: rest) = hintIndices rest := by
        cases a <;> first | rfl | exact absurd rfl (hne _)
      rw [hidx] at hvalid ⊢
      rw [ih (step a w) hr1 hvalid j, (step_frame a w).2.2 hne]

/-! ## The chain of success timestamps -/

theorem btnValidateCode_short (value : String) (w : World)
    (hg : w.str.toUpperCase (w.str.slice (w.str.trim value) 0 4) = "" ∨
      w.str.length (w.str.toUpperCase (w.str.slice (w.str.trim value) 0 4)) < 4) :
    btnValidateCode value w = Except.ok { w with codeMessage := invalidCodeMessage w } := by
  unfold btnValidateCode
  simp only [hg, if_true]

theorem btnValidateCode_null (value : String) (w : World)
    (hg : ¬ (w.str.toUpperCase (w.str.slice (w.str.trim value) 0 4) = "" ∨
      w.str.length (w.str.toUpperCase (w.str.slice (w.str.trim value) 0 4)) < 4))
    (hcfg : w.config = none) :
    btnValidateCode value w = Except.error "TypeError: CONFIG is null" := by
  unfold btnValidateCode
  simp only [hg, if_false, hcfg]

theorem btnValidateCode_unknown (value : String) (w : World) (cfg : Config)
    (hcfg : w.config = some cfg)
    (hm : w.str.toUpperCase (w.str.slice (w.str.trim value) 0 4) ∉ cfg.validPrefixes) :
    btnValidateCode value w = Except.ok { w with codeMessage := invalidCodeMessage w } := by
  unfold btnValidateCode
  simp only [hcfg, hm, not_false_eq_true, if_true, ite_self]

theorem btnValidateCode_known (value : String) (w : World) (cfg : Config)
    (hg : ¬ (w.str.toUpperCase (w.str.slice (w.str.trim value) 0 4) = "" ∨
      w.str.length (w.str.toUpperCase (w.str.slice (w.str.trim value) 0 4)) < 4))
    (hcfg : w.config = some cfg)
    (hm : w.str.toUpperCase (w.str.slice (w.str.trim value) 0 4) ∈ cfg.validPrefixes) :
    ∃ w1, btnValidateCode value w = Except.ok w1 ∧
      w1.storage =
        { userCode := some (w.str.trim value), startTime := some (w.clock w.reads),
          lastSuccessTime := some (w.clock w.reads), totalErrors := some 0,
          totalHints := some 0 } ∧
      w1.screens = w.screens.map (toggleScreen "screen-instructions") := by
  unfold btnValidateCode
  simp only [hg, if_false, hcfg, hm, not_true_eq_false]
  refine ⟨_, rfl, ?_, ?_⟩
  · rw [showScreen_storage, track_eq, baseTrackData_eq]
    rfl
  · rw [showScreen_screens, track_eq, baseTrackData_eq]
    rfl

theorem showPreScore_storage (w : World) : (showPreScore w).storage = w.storage := by
  unfold showPreScore
  split <;> rfl

theorem showPreScore_tracked (w : World) : (showPreScore w).tracked = w.tracked := by
  unfold showPreScore
  split <;> rfl

theorem showPreScore_screens (w : World) : (showPreScore w).screens = w.screens := by
  unfold showPreScore
  split <;> rfl

theorem showPreScore_modal (w : World) : (showPreScore w).modal = w.modal := by
  unfold showPreScore
  split <;> rfl

theorem step_lastSuccessTime (w : World) (a : Action) :
    (step a w).storage.lastSuccessTime =
      if writesLastSuccess w a = true then some (w.clock w.reads)
      else w.storage.lastSuccessTime := by
  cases a
  case validateCode value =>
    simp only [step, writesLastSuccess, accepted]
    rcases Option.eq_none_or_eq_some w.config with hcfg | ⟨cfg, hcfg⟩
    · by_cases hg : (w.str.toUpperCase (w.str.slice (w.str.trim value) 0 4) = "" ∨
          w.str.length (w.str.toUpperCase (w.str.slice (w.str.trim value) 0 4)) < 4)
      · rw [btnValidateCode_short value w hg]
        simp [hcfg]
      · rw [btnValidateCode_null value w hg hcfg]
        simp [hcfg]
    · by_cases hg : (w.str.toUpperCase (w.str.slice (w.str.trim value) 0 4) = "" ∨
          w.str.length (w.str.toUpperCase (w.str.slice (w.str.trim value) 0 4)) < 4)
      · rw [btnValidateCode_short value w hg]
        simp [hcfg, hg]
      · by_cases hm :
          w.str.toUpperCase (w.str.slice (w.str.trim value) 0 4) ∈ cfg.validPrefixes
        · obtain ⟨w1, h1, h2, _⟩ := btnValidateCode_known value w cfg hg hcfg hm
          rw [h1]
          simp [hcfg, hg, hm, h2]
        · rw [btnValidateCode_unknown value w cfg hcfg hm]
          simp [hcfg, hm]
  case validate1 answer =>
    simp only [step, btnR1Validate, writesLastSuccess, succeedsSingle]
    rcases Option.eq_none_or_eq_some (findRiddle 1 w) with hr | ⟨r, hr⟩
    · simp [hr]
    · simp only [hr]
      by_cases h1 : answer = ""
      · simp [h1, revealMessage]
      · by_cases h2 : r.correct = some answer
        · simp [h1, h2, recordSuccess_eq, openModal]
        · simp [h1, h2, recordError_eq, incrementErrors]
  case validate4 answer =>
    simp only [step, btnR4Validate, writesLastSuccess, succeedsSingle]
    rcases Option.eq_none_or_eq_some (findRiddle 4 w) with hr | ⟨r, hr⟩
    · simp [hr]
    · simp only [hr]
      by_cases h1 : answer = ""
      · simp [h1, revealMessage]
      · by_cases h2 : r.correct = some answer
        · simp [h1, h2, recordSuccess_eq, openModal]
        · simp [h1, h2, recordError_eq, incrementErrors]
  case validate5 answer =>
    simp only [step, btnR5Validate, writesLastSuccess, succeedsSingle]
    rcases Option.eq_none_or_eq_some (findRiddle 5 w) with hr | ⟨r, hr⟩
    · simp [hr]
    · simp only [hr]
      by_cases h1 : answer = ""
      · simp [h1, revealMessage]
      · by_cases h2 : r.correct = some answer
        · simp [h1, h2, recordSuccess_eq, showScreen_storage, showPreScore_storage]
        · simp [h1, h2, recordError_eq, incrementErrors]
  case validate2 answers =>
    simp only [step, btnR2Validate, writesLastSuccess, succeedsMulti]
    rcases Option.eq_none_or_eq_some (findRiddle 2 w) with hr | ⟨r, hr⟩
    · simp [hr]
    · simp only [hr]
      by_cases h1 : correctCount (r.questions.getD []) answers = (r.questions.getD []).length
      · simp [h1, recordSuccess_eq, openModal]
      · simp [h1, recordMultiError_eq, incrementErrors]
  case validate3 answers =>
    simp only [step, btnR3Validate, writesLastSuccess, succeedsMulti]
    rcases Option.eq_none_or_eq_some (findRiddle 3 w) with hr | ⟨r, hr⟩
    · simp [hr]
    · simp only [hr]
      by_cases h1 : correctCount (r.questions.getD []) answers = (r.questions.getD []).length
      · simp [h1, recordSuccess_eq, openModal]
      · simp [h1, recordMultiError_eq, incrementErrors]
  case hint i =>
    simp only [writesLastSuccess, Bool.false_eq_true, if_false]
    simp only [step, hintBtnClick, baseTrackData_eq, track_eq, incrementHints]
    repeat' split
    all_goals rfl
  case preScoreBtn =>
    simp only [writesLastSuccess, Bool.false_eq_true, if_false]
    simp only [step, btnPreScoreClick]
    split
    · rw [(showScore_frame _).2.2.1, showScreen_storage]
    · rfl
  all_goals
    simp only [writesLastSuccess, Bool.false_eq_true, if_false]
    simp only [step, modalBtnClick, modalBackdropClick, modalClose,
      btnPostScoreClick, hideSplash, showPostScore, showScreen_eq, baseTrackData_eq, track_eq]
    repeat' split
    all_goals rfl

theorem baseData_get_delta (riddleId : Nat) (d : JsVal) (w : World) :
    Obj.get (baseData [("riddleId", JsVal.num riddleId), ("secondsSinceLastSuccess", d)] w)
      "secondsSinceLastSuccess" = some d := by
  simp [baseData, Obj.spread, Obj.set, Obj.get]

theorem recordSuccess_events (riddleId : Nat) (w : World) :
    ∃ e, (recordSuccess riddleId w).tracked = w.tracked ++ [e] ∧
      e.name = "riddle_success" ∧
      e.data.get "riddleId" = some (JsVal.num riddleId) ∧
      e.data.get "secondsSinceLastSuccess" =
        some (elapsed (getLastSuccessTime w) (w.clock (w.reads + 1))) := by
  rw [recordSuccess_eq]
  refine ⟨_, rfl, rfl, ?_, baseData_get_delta _ _ _⟩
  simp [baseData, Obj.spread, Obj.set, Obj.get]

theorem successEvents_of_tracked (w w1 : World) (e : Event) (l : List Event)
    (h : w1.tracked = w.tracked ++ e :: l) (he : e.name = "riddle_success")
    (hl : ∀ x ∈ l, x.name ≠ "riddle_success") :
    successEvents w1 = successEvents w ++ [e] := by
  unfold successEvents
  rw [h, List.filter_append, List.filter_cons]
  simp only [he, decide_True, if_true]
  have : l.filter (fun e => decide (e.name = "riddle_success")) = [] := by
    rw [List.filter_eq_nil_iff]
    intro x hx
    simpa using hl x hx
  rw [this]

theorem step_success_events (w : World) (a : Action) (h : reachesSuccess w a = true) :
    ∃ e, successEvents (step a w) = successEvents w ++ [e] ∧
      e.data.get "secondsSinceLastSuccess" =
        some (elapsed (getLastSuccessTime w) (w.clock (w.reads + 1))) ∧
      ∀ n, riddleOf a = some n → e.data.get "riddleId" = some (JsVal.num n) := by
  cases a <;> simp only [reachesSuccess, writesLastSuccess, succeedsSingle, succeedsMulti,
    Bool.false_eq_true] at h
  case validate1 answer =>
    rcases Option.eq_none_or_eq_some (findRiddle 1 w) with hr | ⟨r, hr⟩
    · simp [hr] at h
    · simp only [hr, decide_eq_true_eq] at h
      obtain ⟨e, he, hn, hid, hd⟩ := recordSuccess_events 1 w
      refine ⟨e, successEvents_of_tracked w _ e [] ?_ hn (by simp), hd, fun n hn => by cases hn; exact hid⟩
      simp [step, btnR1Validate, hr, h.1, h.2, openModal, he]
  case validate4 answer =>
    rcases Option.eq_none_or_eq_some (findRiddle 4 w) with hr | ⟨r, hr⟩
    · simp [hr] at h
    · simp only [hr, decide_eq_true_eq] at h
      obtain ⟨e, he, hn, hid, hd⟩ := recordSuccess_events 4 w
      refine ⟨e, successEvents_of_tracked w _ e [] ?_ hn (by simp), hd, fun n hn => by cases hn; exact hid⟩
      simp [step, btnR4Validate, hr, h.1, h.2, openModal, he]
  case validate5 answer =>
    rcases Option.eq_none_or_eq_some (findRiddle 5 w) with hr | ⟨r, hr⟩
    · simp [hr] at h
    · simp only [hr, decide_eq_true_eq] at h
      obtain ⟨e, he, hn, hid, hd⟩ := recordSuccess_events 5 w
      refine ⟨e, successEvents_of_tracked w _ e
        [⟨"screen_view", baseData [("screen", JsVal.str "screen-preScore")]
          { recordSuccess 5 w with r5Message := jsOr r.successText "Bravo !" }⟩] ?_ hn
        (by simp), hd, fun n hn => by cases hn; exact hid⟩
      simp only [step, btnR5Validate, hr, h.1, h.2, if_false, ne_eq, not_true_eq_false,
        showPreScore_tracked, showScreen_eq, he, List.append_assoc, List.singleton_append]
  case validate2 answers =>
    rcases Option.eq_none_or_eq_some (findRiddle 2 w) with hr | ⟨r, hr⟩
    · simp [hr] at h
    · simp only [hr, decide_eq_true_eq] at h
      obtain ⟨e, he, hn, hid, hd⟩ := recordSuccess_events 2 w
      refine ⟨e, successEvents_of_tracked w _ e [] ?_ hn (by simp), hd, fun n hn => by cases hn; exact hid⟩
      simp [step, btnR2Validate, hr, h, openModal, he]
  case validate3 answers =>
    rcases Option.eq_none_or_eq_some (findRiddle 3 w) with hr | ⟨r, hr⟩
    · simp [hr] at h
    · simp only [hr, decide_eq_true_eq] at h
      obtain ⟨e, he, hn, hid, hd⟩ := recordSuccess_events 3 w
      refine ⟨e, successEvents_of_tracked w _ e [] ?_ hn (by simp), hd, fun n hn => by cases hn; exact hid⟩
      simp [step, btnR3Validate, hr, h, openModal, he]

theorem run_clock (acts : List Action) (w : World) : (run acts w).clock = w.clock := by
  induction acts generalizing w with
  | nil => rfl
  | cons a rest ih => rw [run_cons, ih, (step_frame a w).2.1]

theorem run_quiet_lastSuccessTime (acts : List Action) (w : World)
    (h : quietRun w acts = true) :
    (run acts w).storage.lastSuccessTime = w.storage.lastSuccessTime := by
  induction acts generalizing w with
  | nil => rfl
  | cons a rest ih =>
    simp only [quietRun, Bool.and_eq_true, Bool.not_eq_true'] at h
    rw [run_cons, ih (step a w) h.2, step_lastSuccessTime, h.1]
    simp

theorem listedQuiet_not_writes (w : World) (a : Action) (h : ListedQuiet w a) :
    writesLastSuccess w a = false := by
  rcases h with h | rfl | rfl | rfl | ⟨i, rfl⟩ | rfl | rfl | rfl | rfl | rfl | rfl
  · cases a <;> simp only [WrongAnswer] at h
    case validate1 ans =>
      obtain ⟨r, hr, _, hc⟩ := h
      simp [writesLastSuccess, succeedsSingle, hr, hc]
    case validate4 ans =>
      obtain ⟨r, hr, _, hc⟩ := h
      simp [writesLastSuccess, succeedsSingle, hr, hc]
    case validate5 ans =>
      obtain ⟨r, hr, _, hc⟩ := h
      simp [writesLastSuccess, succeedsSingle, hr, hc]
    case validate2 answers =>
      obtain ⟨r, hr, i, q, hq, hc⟩ := h
      simp [writesLastSuccess, succeedsMulti, hr, correctCount_ne_of_wrong _ answers i q hq hc]
    case validate3 answers =>
      obtain ⟨r, hr, i, q, hq, hc⟩ := h
      simp [writesLastSuccess, succeedsMulti, hr, correctCount_ne_of_wrong _ answers i q hq hc]
  · simp only [writesLastSuccess, succeedsSingle]
    split <;> simp
  · simp only [writesLastSuccess, succeedsSingle]
    split <;> simp
  · simp only [writesLastSuccess, succeedsSingle]
    split <;> simp
  all_goals rfl

/-- C5: let a handler run reach the accept branch of the code handler or a success branch
at clock reading `t > 0`, let it be followed by handler runs that reach neither, and then by
a riddle validation that reaches its success branch.  That validation tracks one
`riddle_success` event whose `secondsSinceLastSuccess` is `floor((now - t) / 1000)`, `now`
being the clock reading taken by `secondsSinceLastSuccess()`.  Moreover a wrong-answer or
no-answer validation, a hint reveal, a screen change and the score display leave
`lastSuccessTime` as it was. -/
theorem C5_seconds_since_last_success (w : World) (a0 : Action) (mid : List Action)
    (aN : Action)
    (h0 : writesLastSuccess w a0 = true)
    (hpos : 0 < w.clock w.reads)
    (hmid : quietRun (step a0 w) mid = true)
    (hN : reachesSuccess (run mid (step a0 w)) aN = true) :
    (step a0 w).storage.lastSuccessTime = some (w.clock w.reads) ∧
    (∃ e, successEvents (step aN (run mid (step a0 w))) =
        successEvents (run mid (step a0 w)) ++ [e] ∧
      e.data.get "secondsSinceLastSuccess" =
        some (JsVal.num
          ((w.clock ((run mid (step a0 w)).reads + 1) - w.clock w.reads) / 1000))) ∧
    (∀ v a, ListedQuiet v a →
      (step a v).storage.lastSuccessTime = v.storage.lastSuccessTime) := by
  have hw : (step a0 w).storage.lastSuccessTime = some (w.clock w.reads) := by
    rw [step_lastSuccessTime, h0]
    simp
  have hlast : (run mid (step a0 w)).storage.lastSuccessTime = some (w.clock w.reads) := by
    rw [run_quiet_lastSuccessTime mid (step a0 w) hmid, hw]
  have hclock : (run mid (step a0 w)).clock = w.clock := by
    rw [run_clock, (step_frame a0 w).2.1]
  refine ⟨hw, ?_, ?_⟩
  · obtain ⟨e, he, hd, _⟩ := step_success_events (run mid (step a0 w)) aN hN
    refine ⟨e, he, ?_⟩
    rw [hd, hclock]
    simp [getLastSuccessTime, hlast, hpos, elapsed]
  · intro v a hq
    rw [step_lastSuccessTime, listedQuiet_not_writes v a hq]
    simp

/-- Witness for C5: the code is validated at clock reading 1000; a wrong answer, a missing
answer, a hint reveal and a screen change follow; then riddle 1 is solved. -/
theorem C5_seconds_since_last_success_witness :
    writesLastSuccess (sampleWorld 1000) (Action.validateCode "ABCD1234") = true ∧
    0 < (sampleWorld 1000).clock (sampleWorld 1000).reads ∧
    quietRun (step (Action.validateCode "ABCD1234") (sampleWorld 1000))
      [Action.toRiddle1, Action.validate1 "Lyon", Action.validate1 "", Action.hint 0] = true ∧
    reachesSuccess
      (run [Action.toRiddle1, Action.validate1 "Lyon", Action.validate1 "", Action.hint 0]
        (step (Action.validateCode "ABCD1234") (sampleWorld 1000)))
      (Action.validate1 "Paris") = true ∧
    (step (Action.validateCode "ABCD1234") (sampleWorld 1000)).storage.lastSuccessTime =
      some 1000 ∧
    (∃ e, successEvents (step (Action.validate1 "Paris")
        (run [Action.toRiddle1, Action.validate1 "Lyon", Action.validate1 "", Action.hint 0]
          (step (Action.validateCode "ABCD1234") (sampleWorld 1000)))) =
        successEvents
          (run [Action.toRiddle1, Action.validate1 "Lyon", Action.validate1 "", Action.hint 0]
            (step (Action.validateCode "ABCD1234") (sampleWorld 1000))) ++ [e] ∧
      e.data.get "secondsSinceLastSuccess" =
        some (JsVal.num
          (((sampleWorld 1000).clock
            ((run [Action.toRiddle1, Action.validate1 "Lyon", Action.validate1 "",
                Action.hint 0]
              (step (Action.validateCode "ABCD1234") (sampleWorld 1000))).reads + 1) -
            1000) / 1000))) :=
  have h := C5_seconds_since_last_success (sampleWorld 1000) (Action.validateCode "ABCD1234")
    [Action.toRiddle1, Action.validate1 "Lyon", Action.validate1 "", Action.hint 0]
    (Action.validate1 "Paris") (by decide) (by decide) (by decide) (by decide)
  ⟨by decide, by decide, by decide, by decide, h.1, h.2.1⟩

/-! ## Navigation -/

theorem visible_toggle_count (screenId : String) (screens : List Screen) :
    (screens.map (toggleScreen screenId)).countP (fun s => s.visible) =
      (screens.map Screen.id).count screenId := by
  induction screens with
  | nil => rfl
  | cons s rest ih =>
    rw [List.map_cons, List.map_cons, List.countP_cons, List.count_cons, ih]
    by_cases h : s.id = screenId
    · have hv := (toggleScreen_visible screenId s).mpr h
      simp [hv, h]
    · have hv : (toggleScreen screenId s).visible ≠ true :=
        fun hv => h ((toggleScreen_visible screenId s).mp hv)
      simp [hv, h]

/-- C6: after `showScreen(screenId)` a screen is visible exactly when its id is
`screenId`, the screens being the same elements; when the ids are pairwise distinct,
exactly one screen is visible if `screenId` is the id of a screen and none otherwise; and
exactly one event is tracked, a `screen_view` carrying `screenId`. -/
theorem C6_show_screen (w : World) (screenId : String)
    (hnodup : (w.screens.map Screen.id).Nodup) :
    (∀ s ∈ (showScreen screenId w).screens, s.visible = true ↔ s.id = screenId) ∧
    (showScreen screenId w).screens.map Screen.id = w.screens.map Screen.id ∧
    (screenId ∈ w.screens.map Screen.id →
      (showScreen screenId w).screens.countP (fun s => s.visible) = 1) ∧
    (screenId ∉ w.screens.map Screen.id →
      (showScreen screenId w).screens.countP (fun s => s.visible) = 0) ∧
    (∃ e, (showScreen screenId w).tracked = w.tracked ++ [e] ∧ e.name = "screen_view" ∧
      e.data.get "screen" = some (JsVal.str screenId)) := by
  refine ⟨?_, ?_, ?_, ?_, ?_⟩
  · intro s hs
    rw [showScreen_screens, List.mem_map] at hs
    obtain ⟨s0, _, rfl⟩ := hs
    rw [toggleScreen_visible, toggleScreen_id]
  · rw [showScreen_screens]
    simp [Function.comp_def, toggleScreen_id]
  · intro hmem
    rw [showScreen_screens, visible_toggle_count]
    exact List.count_eq_one_of_mem hnodup hmem
  · intro hmem
    rw [showScreen_screens, visible_toggle_count]
    exact List.count_eq_zero_of_not_mem hmem
  · rw [showScreen_eq]
    refine ⟨_, rfl, rfl, ?_⟩
    simp [baseData, Obj.spread, Obj.set, Obj.get]

/-- Witness for C6: the eleven screens of the page, `screen-code` being asked for. -/
theorem C6_show_screen_witness :
    ((sampleWorld 0).screens.map Screen.id).Nodup ∧
    (showScreen "screen-code" (sampleWorld 0)).screens.countP (fun s => s.visible) = 1 ∧
    (showScreen "screen-nowhere" (sampleWorld 0)).screens.countP (fun s => s.visible) = 0 :=
  ⟨by decide,
    (C6_show_screen (sampleWorld 0) "screen-code" (by decide)).2.2.1 (by decide),
    (C6_show_screen (sampleWorld 0) "screen-nowhere" (by decide)).2.2.2.1 (by decide)⟩

/-! ## Score -/

theorem showScore_started (w : World) (start : Int)
    (hstart : w.storage.startTime = some start) (hne : start ≠ 0) :
    (showScore w).scoreTime =
      toString ((w.clock w.reads - start) / 1000 / 60) ++ " min " ++
        toString (Int.tmod ((w.clock w.reads - start) / 1000) 60) ++ " s" ∧
    ∃ e, (showScore w).tracked = w.tracked ++ [e] ∧ e.name = "game_completed" ∧
      e.data.get "totalSeconds" =
        some (JsVal.num ((w.clock (w.reads + 1) - start) / 1000)) := by
  unfold showScore
  simp only [hstart, Option.getD_some, hne, if_false, baseTrackData_eq, track_eq, dateNow]
  refine ⟨trivial, _, rfl, rfl, ?_⟩
  simp [baseData, Obj.spread, Obj.set, Obj.get]

theorem showScore_absent (w : World) (hstart : w.storage.startTime = none) :
    (showScore w).scoreTime = "—" ∧
    ∃ e, (showScore w).tracked = w.tracked ++ [e] ∧ e.name = "game_completed" ∧
      e.data.get "totalSeconds" = some JsVal.null := by
  unfold showScore
  simp only [hstart, Option.getD_none, if_true, baseTrackData_eq, track_eq]
  refine ⟨trivial, _, rfl, rfl, ?_⟩
  simp [baseData, Obj.spread, Obj.set, Obj.get]

/-- C7, as amended: `showScore` reads the clock twice.  For a recorded start time
`start > 0` and a first reading `now ≥ start` it displays `"M min S s"` with
`S = floor((now - start) / 1000) mod 60` and `M = floor(floor((now - start) / 1000) / 60)`,
so `0 ≤ S < 60`; the `totalSeconds` of the tracked `game_completed` event is
`floor((later - start) / 1000)` for the second reading `later`.  It equals `60 * M + S`
when both readings fall in the same whole second after `start`, and is at least
`60 * M + S` when `now ≤ later`.  When no start time is recorded the text is `"—"` and
`totalSeconds` is `null`. -/
theorem C7_show_score (w : World) (start now later : Int)
    (hpos : 0 < start) (hnow : start ≤ now)
    (hfirst : w.clock w.reads = now) (hsecond : w.clock (w.reads + 1) = later) :
    (w.storage.startTime = some start →
      (showScore w).scoreTime =
        toString ((now - start) / 1000 / 60) ++ " min " ++
          toString ((now - start) / 1000 % 60) ++ " s" ∧
      0 ≤ (now - start) / 1000 % 60 ∧ (now - start) / 1000 % 60 < 60 ∧
      ∃ e, (showScore w).tracked = w.tracked ++ [e] ∧ e.name = "game_completed" ∧
        e.data.get "totalSeconds" = some (JsVal.num ((later - start) / 1000)) ∧
        ((later - start) / 1000 = (now - start) / 1000 →
          e.data.get "totalSeconds" =
            some (JsVal.num
              (60 * ((now - start) / 1000 / 60) + (now - start) / 1000 % 60))) ∧
        (now ≤ later →
          60 * ((now - start) / 1000 / 60) + (now - start) / 1000 % 60 ≤
            (later - start) / 1000)) ∧
    (w.storage.startTime = none →
      (showScore w).scoreTime = "—" ∧
      ∃ e, (showScore w).tracked = w.tracked ++ [e] ∧ e.name = "game_completed" ∧
        e.data.get "totalSeconds" = some JsVal.null) := by
  refine ⟨fun hstart => ?_, showScore_absent w⟩
  obtain ⟨htime, e, he, hn, hd⟩ := showScore_started w start hstart (by omega)
  have hsec : 0 ≤ (now - start) / 1000 := by omega
  rw [hsecond] at hd
  refine ⟨?_, by omega, by omega, e, he, hn, hd, ?_, ?_⟩
  · rw [htime, hfirst, Int.tmod_eq_emod hsec (by decide)]
  · intro hsame
    rw [hd, hsame]
    congr 2
    omega
  · intro hle
    omega

/-- Witness for C7 as amended: the start time was recorded 125 seconds before the score is
shown and both readings of the clock agree. -/
theorem C7_show_score_witness :
    (0 : Int) < 1000 ∧ (1000 : Int) ≤ 126000 ∧
    (frozenWorld (some 1000) 126000).clock (frozenWorld (some 1000) 126000).reads = 126000 ∧
    (frozenWorld (some 1000) 126000).storage.startTime = some 1000 ∧
    (showScore (frozenWorld (some 1000) 126000)).scoreTime = "2 min 5 s" :=
  ⟨by decide, by decide, rfl, rfl,
    ((C7_show_score (frozenWorld (some 1000) 126000) 1000 126000 126000 (by decide)
      (by decide) rfl rfl).1 rfl).1⟩

/-- Counterexample to C7 as stated: the start time is 1000 and the clock reads 60999 for
the text and 61000 for the event, so the text is `"0 min 59 s"` while `totalSeconds` is
60, which is not `60 * 0 + 59`. -/
theorem C7_counterexample :
    tickingWorld.storage.startTime = some 1000 ∧
    tickingWorld.clock tickingWorld.reads = 60999 ∧
    tickingWorld.clock (tickingWorld.reads + 1) = 61000 ∧
    (showScore tickingWorld).scoreTime = "0 min 59 s" ∧
    (∃ e, (showScore tickingWorld).tracked = tickingWorld.tracked ++ [e] ∧
      e.name = "game_completed" ∧ e.data.get "totalSeconds" = some (JsVal.num 60)) ∧
    (60 * 0 + 59 : Int) ≠ 60 := by
  have h := showScore_started tickingWorld 1000 rfl (by decide)
  refine ⟨rfl, rfl, rfl, ?_, ?_, by decide⟩
  · rw [h.1]
    rfl
  · obtain ⟨e, he, hn, hd⟩ := h.2
    exact ⟨e, he, hn, hd⟩

/-! ## Order of the riddles -/

theorem modalBtnClick_open (target : String) (w : World)
    (h : w.modal.btnOnClick = some target) :
    (modalBtnClick w).screens = w.screens.map (toggleScreen target) ∧
    (modalBtnClick w).modal.isOpen = false := by
  unfold modalBtnClick modalClose
  simp only [h, showScreen_eq]
  constructor <;> trivial

/-- C8: a validation of riddle `n` that reaches its success branch tracks a
`riddle_success` event carrying `riddleId = n`.  For `n` from 1 to 4 it leaves the screens
as they were and opens the modal, whose button and backdrop both continue to the screen of
riddle `n + 1`: after the click on the button exactly that screen is shown and the modal
is closed.  For `n = 5` it shows `screen-preScore` itself and leaves the modal as it was. -/
theorem C8_ascending_order (w : World) (a : Action) (n : Nat)
    (hn : riddleOf a = some n) (hs : reachesSuccess w a = true) :
    (∃ e, successEvents (step a w) = successEvents w ++ [e] ∧
      e.data.get "riddleId" = some (JsVal.num n)) ∧
    (n ≤ 4 →
      (step a w).screens = w.screens ∧
      (step a w).modal.isOpen = true ∧
      (step a w).modal.btnOnClick = some (riddleScreen (n + 1)) ∧
      (step a w).modal.backdropOnClick = some (riddleScreen (n + 1)) ∧
      (step Action.modalBtn (step a w)).screens =
        w.screens.map (toggleScreen (riddleScreen (n + 1))) ∧
      (step Action.modalBtn (step a w)).modal.isOpen = false) ∧
    (n = 5 →
      (step a w).screens = w.screens.map (toggleScreen "screen-preScore") ∧
      (step a w).modal = w.modal) := by
  obtain ⟨e, he, _, hid⟩ := step_success_events w a hs
  refine ⟨⟨e, he, hid n hn⟩, ?_, ?_⟩
  · intro hle
    have key : (step a w).screens = w.screens ∧ (step a w).modal.isOpen = true ∧
        (step a w).modal.btnOnClick = some (riddleScreen (n + 1)) ∧
        (step a w).modal.backdropOnClick = some (riddleScreen (n + 1)) := by
      cases a <;> simp only [riddleOf, Option.some.injEq] at hn <;> try cases hn
      case validate1 answer =>
        simp only [reachesSuccess, writesLastSuccess, succeedsSingle] at hs
        rcases Option.eq_none_or_eq_some (findRiddle 1 w) with hr | ⟨r, hr⟩
        · simp [hr] at hs
        · simp only [hr, decide_eq_true_eq] at hs
          simp only [step, btnR1Validate, hr, hs.1, hs.2, if_false, ne_eq, not_true_eq_false,
            recordSuccess_eq, openModal]
          refine ⟨?_, ?_, ?_, ?_⟩ <;> trivial
      case validate2 answers =>
        simp only [reachesSuccess, writesLastSuccess, succeedsMulti] at hs
        rcases Option.eq_none_or_eq_some (findRiddle 2 w) with hr | ⟨r, hr⟩
        · simp [hr] at hs
        · simp only [hr, decide_eq_true_eq] at hs
          simp only [step, btnR2Validate, hr, hs, if_false, ne_eq, not_true_eq_false,
            recordSuccess_eq, openModal]
          refine ⟨?_, ?_, ?_, ?_⟩ <;> trivial
      case validate3 answers =>
        simp only [reachesSuccess, writesLastSuccess, succeedsMulti] at hs
        rcases Option.eq_none_or_eq_some (findRiddle 3 w) with hr | ⟨r, hr⟩
        · simp [hr] at hs
        · simp only [hr, decide_eq_true_eq] at hs
          simp only [step, btnR3Validate, hr, hs, if_false, ne_eq, not_true_eq_false,
            recordSuccess_eq, openModal]
          refine ⟨?_, ?_, ?_, ?_⟩ <;> trivial
      case validate4 answer =>
        simp only [reachesSuccess, writesLastSuccess, succeedsSingle] at hs
        rcases Option.eq_none_or_eq_some (findRiddle 4 w) with hr | ⟨r, hr⟩
        · simp [hr] at hs
        · simp only [hr, decide_eq_true_eq] at hs
          simp only [step, btnR4Validate, hr, hs.1, hs.2, if_false, ne_eq, not_true_eq_false,
            recordSuccess_eq, openModal]
          refine ⟨?_, ?_, ?_, ?_⟩ <;> trivial
      case validate5 answer => omega
    obtain ⟨h1, h2, h3, h4⟩ := key
    have hm := modalBtnClick_open (riddleScreen (n + 1)) (step a w) h3
    refine ⟨h1, h2, h3, h4, ?_, hm.2⟩
    show (modalBtnClick (step a w)).screens = _
    rw [hm.1, h1]
  · intro h5
    subst h5
    cases a with
    | validate5 answer =>
      simp only [reachesSuccess, writesLastSuccess, succeedsSingle] at hs
      rcases Option.eq_none_or_eq_some (findRiddle 5 w) with hr | ⟨r, hr⟩
      · simp [hr] at hs
      · simp only [hr, decide_eq_true_eq] at hs
        simp only [step, btnR5Validate, hr, hs.1, hs.2, if_false, ne_eq, not_true_eq_false,
          showPreScore_screens, showPreScore_modal, showScreen_eq, recordSuccess_eq]
        constructor <;> trivial
    | _ => simp [riddleOf] at hn

/-- Witness for C8: both sub-questions of riddle 2 are answered correctly, then the
modal button is clicked. -/
theorem C8_ascending_order_witness :
    riddleOf (Action.validate2 ["Paris", "2"]) = some 2 ∧
    reachesSuccess (sampleWorld 0) (Action.validate2 ["Paris", "2"]) = true ∧
    (∃ e, successEvents (step (Action.validate2 ["Paris", "2"]) (sampleWorld 0)) =
        successEvents (sampleWorld 0) ++ [e] ∧
      e.data.get "riddleId" = some (JsVal.num 2)) ∧
    (step Action.modalBtn (step (Action.validate2 ["Paris", "2"]) (sampleWorld 0))).screens =
      sampleScreens.map (toggleScreen "screen-riddle3") :=
  have h := C8_ascending_order (sampleWorld 0) (Action.validate2 ["Paris", "2"]) 2 rfl
    (by decide)
  ⟨rfl, by decide, h.1, (h.2.1 (by decide)).2.2.2.2.1⟩

/-! ## Rejected codes and missing answers -/

/-- C9: with a loaded configuration, when the upper-cased four-character slice of the
trimmed input is shorter than 4 characters or is not in `validPrefixes`, the code handler
returns normally and the only thing it changes is the code message, set to the configured
invalid-code text or to `"Code invalide."`: the five storage keys, both analytics sinks
and the screens are as they were. -/
theorem C9_code_rejected (w : World) (cfg : Config) (value : String)
    (hcfg : w.config = some cfg)
    (hbad : w.str.length (codePrefix w value) < 4 ∨ codePrefix w value ∉ cfg.validPrefixes) :
    btnValidateCode value w =
      Except.ok { w with
        codeMessage := jsNullish (cfg.texts.bind Texts.errorInvalidCode) "Code invalide." } ∧
    (step (Action.validateCode value) w).storage = w.storage ∧
    (step (Action.validateCode value) w).tracked = w.tracked ∧
    (step (Action.validateCode value) w).sheet = w.sheet ∧
    (step (Action.validateCode value) w).screens = w.screens := by
  have hmsg : invalidCodeMessage w =
      jsNullish (cfg.texts.bind Texts.errorInvalidCode) "Code invalide." := by
    unfold invalidCodeMessage
    rw [hcfg]
    rfl
  have h : btnValidateCode value w =
      Except.ok { w with codeMessage := invalidCodeMessage w } := by
    rcases hbad with hshort | hnot
    · exact btnValidateCode_short value w (Or.inr hshort)
    · exact btnValidateCode_unknown value w cfg hcfg hnot
  refine ⟨?_, ?_, ?_, ?_, ?_⟩
  · rw [h, hmsg]
  all_goals
    simp only [step, h]

/-- Witness for C9: a three-character code and a code with an unknown prefix. -/
theorem C9_code_rejected_witness :
    (sampleWorld 0).config = some sampleConfig ∧
    asciiOps.length (codePrefix (sampleWorld 0) " ab1 ") < 4 ∧
    codePrefix (sampleWorld 0) "qrst9999" ∉ sampleConfig.validPrefixes ∧
    (step (Action.validateCode " ab1 ") (sampleWorld 0)).storage = (sampleWorld 0).storage ∧
    btnValidateCode "qrst9999" (sampleWorld 0) =
      Except.ok { sampleWorld 0 with codeMessage := "Code invalide." } :=
  ⟨rfl, by decide, by decide,
    (C9_code_rejected (sampleWorld 0) sampleConfig " ab1 " rfl (Or.inl (by decide))).2.1,
    (C9_code_rejected (sampleWorld 0) sampleConfig "qrst9999" rfl (Or.inr (by decide))).1⟩

/-- C10: on a configured single-question riddle (1, 4 or 5), whatever its configured
correct value, a validation with the empty selected value sets the message of the riddle
to `"Choisissez une option."`, scrolls it into view and changes nothing else: storage,
analytics sinks, screens, modal and clock reads are as they were. -/
theorem C10_no_answer (w : World) (a : Action) (n : Nat) (r : Riddle)
    (ha : a = Action.validate1 "" ∨ a = Action.validate4 "" ∨ a = Action.validate5 "")
    (hn : riddleOf a = some n) (hr : findRiddle n w = some r) :
    riddleMessage n (step a w) = "Choisissez une option." ∧
    (step a w).storage = w.storage ∧
    (step a w).tracked = w.tracked ∧
    (step a w).sheet = w.sheet ∧
    (step a w).screens = w.screens ∧
    (step a w).modal = w.modal ∧
    (step a w).reads = w.reads ∧
    (step a w).usedHints = w.usedHints := by
  rcases ha with rfl | rfl | rfl
  · cases hn
    simp only [step, btnR1Validate, hr, if_true, revealMessage, riddleMessage]
    refine ⟨?_, ?_, ?_, ?_, ?_, ?_, ?_, ?_⟩ <;> trivial
  · cases hn
    simp only [step, btnR4Validate, hr, if_true, revealMessage, riddleMessage]
    refine ⟨?_, ?_, ?_, ?_, ?_, ?_, ?_, ?_⟩ <;> trivial
  · cases hn
    simp only [step, btnR5Validate, hr, if_true, revealMessage, riddleMessage]
    refine ⟨?_, ?_, ?_, ?_, ?_, ?_, ?_, ?_⟩ <;> trivial

/-- Witness for C10: riddle 1 is configured with the empty string as correct value and
nothing is selected. -/
theorem C10_no_answer_witness :
    riddleOf (Action.validate1 "") = some 1 ∧
    (∃ r, findRiddle 1 emptyCorrectWorld = some r ∧ r.correct = some "") ∧
    riddleMessage 1 (step (Action.validate1 "") emptyCorrectWorld) =
      "Choisissez une option." ∧
    (step (Action.validate1 "") emptyCorrectWorld).storage = emptyCorrectWorld.storage ∧
    (step (Action.validate1 "") emptyCorrectWorld).tracked = emptyCorrectWorld.tracked :=
  have h := C10_no_answer emptyCorrectWorld (Action.validate1 "") 1
    { sampleSingle 1 with options := ["", "Paris"], correct := some "" }
    (Or.inl rfl) rfl rfl
  ⟨rfl, ⟨_, rfl, rfl⟩, h.1, h.2.1, h.2.2.1⟩

/-! ## Start time and last success time -/

theorem le_readsAfter (t : Option Int) (r : Nat) : r ≤ readsAfter t r := by
  unfold readsAfter
  split <;> omega

theorem showScreen_reads (screenId : String) (w : World) (r : Nat) (h : r ≤ w.reads) :
    r ≤ (showScreen screenId w).reads := by
  rw [showScreen_eq]
  exact le_trans h (Nat.le_succ_of_le (le_readsAfter _ _))

theorem recordSuccess_reads (riddleId : Nat) (w : World) (r : Nat) (h : r ≤ w.reads) :
    r ≤ (recordSuccess riddleId w).reads := by
  rw [recordSuccess_eq]
  have h1 := le_readsAfter (getLastSuccessTime w) (w.reads + 1)
  have h2 := le_readsAfter (getStartTime w) (readsAfter (getLastSuccessTime w) (w.reads + 1))
  show r ≤ readsAfter (getStartTime w) (readsAfter (getLastSuccessTime w) (w.reads + 1)) + 1
  omega

theorem recordError_reads (riddleId : Nat) (el : String) (w : World) (r : Nat)
    (h : r ≤ w.reads) : r ≤ (recordError riddleId el w).reads := by
  rw [recordError_eq]
  exact le_trans h (Nat.le_succ_of_le (le_readsAfter _ _))

theorem recordMultiError_reads (riddleId : Nat) (el : String) (c t : Nat) (w : World)
    (r : Nat) (h : r ≤ w.reads) : r ≤ (recordMultiError riddleId el c t w).reads := by
  rw [recordMultiError_eq]
  exact le_trans h (Nat.le_succ_of_le (le_readsAfter _ _))

theorem showScore_reads (w : World) (r : Nat) (h : r ≤ w.reads) :
    r ≤ (showScore w).reads := by
  refine le_trans h ?_
  unfold showScore
  simp only [baseTrackData_eq, track_eq, dateNow]
  split
  · exact Nat.le_succ_of_le (le_readsAfter _ _)
  · exact Nat.le_succ_of_le
      (le_trans (by show w.reads ≤ w.reads + 1 + 1; omega) (le_readsAfter _ _))

theorem showPreScore_reads (w : World) : (showPreScore w).reads = w.reads := by
  unfold showPreScore
  split <;> rfl

theorem showPostScore_frame (w : World) :
    (showPostScore w).reads = w.reads ∧ (showPostScore w).storage = w.storage := by
  unfold showPostScore
  split <;> exact ⟨rfl, rfl⟩

theorem btnValidateCode_known_reads (value : String) (w : World) (cfg : Config)
    (hg : ¬ (w.str.toUpperCase (w.str.slice (w.str.trim value) 0 4) = "" ∨
      w.str.length (w.str.toUpperCase (w.str.slice (w.str.trim value) 0 4)) < 4))
    (hcfg : w.config = some cfg)
    (hm : w.str.toUpperCase (w.str.slice (w.str.trim value) 0 4) ∈ cfg.validPrefixes) :
    ∃ w1, btnValidateCode value w = Except.ok w1 ∧ w.reads + 1 ≤ w1.reads := by
  unfold btnValidateCode
  simp only [hg, if_false, hcfg, hm, not_true_eq_false]
  refine ⟨_, rfl, ?_⟩
  apply showScreen_reads
  simp only [baseTrackData_eq, track_eq, dateNow]
  exact Nat.le_succ_of_le (le_readsAfter _ _)

theorem btnValidateCode_reads (value : String) (w w1 : World)
    (h : btnValidateCode value w = Except.ok w1) : w.reads ≤ w1.reads := by
  by_cases hg : (w.str.toUpperCase (w.str.slice (w.str.trim value) 0 4) = "" ∨
      w.str.length (w.str.toUpperCase (w.str.slice (w.str.trim value) 0 4)) < 4)
  · rw [btnValidateCode_short value w hg] at h
    cases h
    exact Nat.le_refl _
  · rcases Option.eq_none_or_eq_some w.config with hcfg | ⟨cfg, hcfg⟩
    · rw [btnValidateCode_null value w hg hcfg] at h
      cases h
    · by_cases hm :
        w.str.toUpperCase (w.str.slice (w.str.trim value) 0 4) ∈ cfg.validPrefixes
      · obtain ⟨w2, h2, hle⟩ := btnValidateCode_known_reads value w cfg hg hcfg hm
        rw [h2] at h
        cases h
        omega
      · rw [btnValidateCode_unknown value w cfg hcfg hm] at h
        cases h
        exact Nat.le_refl _

theorem btnR1Validate_reads (answer : String) (w : World) :
    w.reads ≤ (btnR1Validate answer w).reads := by
  unfold btnR1Validate
  split
  · exact Nat.le_refl _
  · split
    · exact Nat.le_refl _
    · split
      · exact recordError_reads _ _ _ _ (Nat.le_refl _)
      · exact recordSuccess_reads 1 w _ (Nat.le_refl _)

theorem btnR4Validate_reads (answer : String) (w : World) :
    w.reads ≤ (btnR4Validate answer w).reads := by
  unfold btnR4Validate
  split
  · exact Nat.le_refl _
  · split
    · exact Nat.le_refl _
    · split
      · exact recordError_reads _ _ _ _ (Nat.le_refl _)
      · exact recordSuccess_reads 4 w _ (Nat.le_refl _)

theorem btnR5Validate_reads (answer : String) (w : World) :
    w.reads ≤ (btnR5Validate answer w).reads := by
  unfold btnR5Validate
  split
  · exact Nat.le_refl _
  · split
    · exact Nat.le_refl _
    · split
      · exact recordError_reads _ _ _ _ (Nat.le_refl _)
      · rw [showPreScore_reads]
        exact showScreen_reads _ _ _ (recordSuccess_reads 5 w _ (Nat.le_refl _))

theorem btnR2Validate_reads (answers : List String) (w : World) :
    w.reads ≤ (btnR2Validate answers w).reads := by
  unfold btnR2Validate
  split
  · exact Nat.le_refl _
  · dsimp only
    split
    · exact recordMultiError_reads _ _ _ _ _ _ (Nat.le_refl _)
    · exact recordSuccess_reads 2 w _ (Nat.le_refl _)

theorem btnR3Validate_reads (answers : List String) (w : World) :
    w.reads ≤ (btnR3Validate answers w).reads := by
  unfold btnR3Validate
  split
  · exact Nat.le_refl _
  · dsimp only
    split
    · exact recordMultiError_reads _ _ _ _ _ _ (Nat.le_refl _)
    · exact recordSuccess_reads 3 w _ (Nat.le_refl _)

theorem hintBtnClick_reads (i : Nat) (w : World) :
    w.reads ≤ (hintBtnClick i w).reads := by
  simp only [hintBtnClick, baseTrackData_eq, track_eq, incrementHints]
  repeat' split
  all_goals first
    | exact Nat.le_refl _
    | exact Nat.le_succ_of_le (le_readsAfter _ _)

theorem btnPostScoreClick_reads (w : World) : w.reads ≤ (btnPostScoreClick w).reads := by
  simp only [btnPostScoreClick, baseTrackData_eq, track_eq]
  repeat' split
  all_goals first
    | exact Nat.le_refl _
    | exact Nat.le_succ_of_le (le_readsAfter _ _)

theorem step_reads_le (a : Action) (w : World) : w.reads ≤ (step a w).reads := by
  cases a
  case validateCode value =>
    simp only [step]
    split
    · next w1 h => exact btnValidateCode_reads value w w1 h
    · exact Nat.le_refl _
  case toRiddle1 => exact showScreen_reads _ _ _ (Nat.le_refl _)
  case validate1 answer => exact btnR1Validate_reads answer w
  case validate4 answer => exact btnR4Validate_reads answer w
  case validate5 answer => exact btnR5Validate_reads answer w
  case validate2 answers => exact btnR2Validate_reads answers w
  case validate3 answers => exact btnR3Validate_reads answers w
  case hint i => exact hintBtnClick_reads i w
  case modalBtn =>
    simp only [step, modalBtnClick, modalClose]
    split
    · exact Nat.le_refl _
    · exact showScreen_reads _ _ _ (Nat.le_refl _)
  case modalBackdrop =>
    simp only [step, modalBackdropClick, modalClose]
    split
    · exact Nat.le_refl _
    · exact showScreen_reads _ _ _ (Nat.le_refl _)
  case preScoreBtn =>
    simp only [step, btnPreScoreClick]
    split
    · exact showScore_reads _ _ (showScreen_reads _ _ _ (Nat.le_refl _))
    · exact Nat.le_refl _
  case scoreContinue =>
    simp only [step]
    rw [(showPostScore_frame _).1]
    exact showScreen_reads _ _ _ (Nat.le_refl _)
  case postScoreBtn => exact btnPostScoreClick_reads w
  case splashTimeout =>
    simp only [step, hideSplash]
    exact showScreen_reads _ _ _ (Nat.le_refl _)

theorem step_startTime (w : World) (a : Action) :
    (step a w).storage.startTime =
      if acceptsCode w a = true then some (w.clock w.reads)
      else w.storage.startTime := by
  cases a
  case validateCode value =>
    simp only [step, acceptsCode, accepted]
    rcases Option.eq_none_or_eq_some w.config with hcfg | ⟨cfg, hcfg⟩
    · by_cases hg : (w.str.toUpperCase (w.str.slice (w.str.trim value) 0 4) = "" ∨
          w.str.length (w.str.toUpperCase (w.str.slice (w.str.trim value) 0 4)) < 4)
      · rw [btnValidateCode_short value w hg]
        simp [hcfg]
      · rw [btnValidateCode_null value w hg hcfg]
        simp [hcfg]
    · by_cases hg : (w.str.toUpperCase (w.str.slice (w.str.trim value) 0 4) = "" ∨
          w.str.length (w.str.toUpperCase (w.str.slice (w.str.trim value) 0 4)) < 4)
      · rw [btnValidateCode_short value w hg]
        simp [hcfg, hg]
      · by_cases hm :
          w.str.toUpperCase (w.str.slice (w.str.trim value) 0 4) ∈ cfg.validPrefixes
        · obtain ⟨w1, h1, h2, _⟩ := btnValidateCode_known value w cfg hg hcfg hm
          rw [h1]
          simp [hcfg, hg, hm, h2]
        · rw [btnValidateCode_unknown value w cfg hcfg hm]
          simp [hcfg, hm]
  case preScoreBtn =>
    simp only [acceptsCode, Bool.false_eq_true, if_false]
    simp only [step, btnPreScoreClick]
    split
    · rw [(showScore_frame _).2.2.1, showScreen_storage]
    · rfl
  all_goals
    simp only [acceptsCode, Bool.false_eq_true, if_false]
    simp only [step, btnR1Validate, btnR2Validate, btnR3Validate, btnR4Validate, btnR5Validate,
      hintBtnClick, incrementHints, modalBtnClick, modalBackdropClick, modalClose,
      btnPostScoreClick, hideSplash, showPreScore, showPostScore, recordSuccess_eq,
      recordError_eq, recordMultiError_eq, showScreen_eq, openModal, baseTrackData_eq,
      track_eq, revealMessage, incrementErrors]
    repeat' split
    all_goals rfl

theorem acceptsCode_writes (w : World) (a : Action) (h : acceptsCode w a = true) :
    writesLastSuccess w a = true := by
  cases a <;> first | exact h | cases h

theorem chained_of_accept (w : World) (a : Action) (hmono : Monotone w.clock)
    (h : acceptsCode w a = true) : Chained (step a w) := by
  refine ⟨w.clock w.reads, w.clock w.reads, ?_, ?_, le_refl _, ?_⟩
  · rw [step_startTime, h]
    rfl
  · rw [step_lastSuccessTime, acceptsCode_writes w a h]
    rfl
  · rw [(step_frame a w).2.1]
    exact hmono (step_reads_le a w)

theorem chained_step (w : World) (a : Action) (hmono : Monotone w.clock)
    (h : Chained w) : Chained (step a w) := by
  by_cases hacc : acceptsCode w a = true
  · exact chained_of_accept w a hmono hacc
  · obtain ⟨s, l, hs, hl, hsl, hnow⟩ := h
    have hnext : w.clock w.reads ≤ (step a w).clock (step a w).reads := by
      rw [(step_frame a w).2.1]
      exact hmono (step_reads_le a w)
    by_cases hw : writesLastSuccess w a = true
    · refine ⟨s, w.clock w.reads, ?_, ?_, le_trans hsl hnow, hnext⟩
      · rw [step_startTime, if_neg hacc, hs]
      · rw [step_lastSuccessTime, if_pos hw]
    · refine ⟨s, l, ?_, ?_, hsl, le_trans hnow hnext⟩
      · rw [step_startTime, if_neg hacc, hs]
      · rw [step_lastSuccessTime, if_neg hw, hl]

theorem chained_run (acts : List Action) (w : World) (hmono : Monotone w.clock)
    (h : Chained w) : Chained (run acts w) := by
  induction acts generalizing w with
  | nil => exact h
  | cons a rest ih =>
    rw [run_cons]
    apply ih
    · rw [(step_frame a w).2.1]
      exact hmono
    · exact chained_step w a hmono h

/-- C11: under a non-decreasing clock, a code validation that reaches its accept branch
stores the same reading as `startTime` and as `lastSuccessTime`, and after any further
sequence of handler runs both are still recorded with `startTime ≤ lastSuccessTime`. -/
theorem C11_last_success_not_before_start (w : World) (value : String) (acts : List Action)
    (hmono : Monotone w.clock) (hacc : accepted w value = true) :
    (step (Action.validateCode value) w).storage.startTime = some (w.clock w.reads) ∧
    (step (Action.validateCode value) w).storage.lastSuccessTime = some (w.clock w.reads) ∧
    ∃ s l, (run acts (step (Action.validateCode value) w)).storage.startTime = some s ∧
      (run acts (step (Action.validateCode value) w)).storage.lastSuccessTime = some l ∧
      s ≤ l := by
  have hc : acceptsCode w (Action.validateCode value) = true := hacc
  refine ⟨?_, ?_, ?_⟩
  · rw [step_startTime, hc]
    rfl
  · rw [step_lastSuccessTime, acceptsCode_writes w _ hc]
    rfl
  · have hch := chained_of_accept w (Action.validateCode value) hmono hc
    have hmono1 : Monotone (step (Action.validateCode value) w).clock := by
      rw [(step_frame _ w).2.1]
      exact hmono
    obtain ⟨s, l, hs, hl, hsl, _⟩ :=
      chained_run acts (step (Action.validateCode value) w) hmono1 hch
    exact ⟨s, l, hs, hl, hsl⟩

/-- Witness for C11: the code is validated at clock reading 1000, the clock advancing by
one millisecond per reading; riddle 1 is failed, then solved, the modal is continued and a
second code is validated. -/
theorem C11_last_success_not_before_start_witness :
    Monotone (sampleWorld 1000).clock ∧
    accepted (sampleWorld 1000) "ABCD1234" = true ∧
    (step (Action.validateCode "ABCD1234") (sampleWorld 1000)).storage.startTime =
      some 1000 ∧
    (step (Action.validateCode "ABCD1234") (sampleWorld 1000)).storage.lastSuccessTime =
      some 1000 ∧
    ∃ s l,
      (run [Action.toRiddle1, Action.validate1 "Lyon", Action.validate1 "Paris",
          Action.modalBtn, Action.validateCode "wxyz77"]
        (step (Action.validateCode "ABCD1234") (sampleWorld 1000))).storage.startTime =
        some s ∧
      (run [Action.toRiddle1, Action.validate1 "Lyon", Action.validate1 "Paris",
          Action.modalBtn, Action.validateCode "wxyz77"]
        (step (Action.validateCode "ABCD1234") (sampleWorld 1000))).storage.lastSuccessTime =
        some l ∧
      s ≤ l :=
  have hmono : Monotone (sampleWorld 1000).clock := fun a b hab => by
    show (1000 : Int) + (a : Int) ≤ 1000 + (b : Int)
    have : (a : Int) ≤ (b : Int) := Int.ofNat_le.mpr hab
    omega
  have h := C11_last_success_not_before_start (sampleWorld 1000) "ABCD1234"
    [Action.toRiddle1, Action.validate1 "Lyon", Action.validate1 "Paris",
      Action.modalBtn, Action.validateCode "wxyz77"] hmono (by decide)
  ⟨hmono, by decide, h.1, h.2.1, h.2.2⟩

/-! ## A failed configuration load -/

theorem main_error_eq (e : String) (w : World) :
    main (Except.error e) w =
      { world := showScreen "screen-code" (showScreen "screen-splash" w),
        uiReady := false, errors := [e] } := rfl

theorem clickValidateCode_not_ready (value : String) (p : Page) (h : p.uiReady = false) :
    clickValidateCode value p = Except.ok p := by
  unfold clickValidateCode
  simp [h]

theorem clicksValidateCode_not_ready (inputs : List String) (p : Page)
    (h : p.uiReady = false) : clicksValidateCode inputs p = p := by
  induction inputs with
  | nil => rfl
  | cons value rest ih =>
    unfold clicksValidateCode
    rw [clickValidateCode_not_ready value p h]
    exact ih

/-- C12, as amended: when the configuration load fails on a freshly loaded script, `main`
logs the error, shows `screen-code` and leaves `CONFIG` null without running `initUI`, so
no listener is registered: every click on the code button, for every input, returns
normally and leaves the page as it was, after any number of clicks the five storage keys
are as before the load, and no event other than the two `screen_view` of `main` is
tracked. -/
theorem C12_load_failure (w : World) (e : String) (inputs : List String) (value : String)
    (h0 : w.config = none) :
    (main (Except.error e) w).world.config = none ∧
    (main (Except.error e) w).uiReady = false ∧
    (main (Except.error e) w).errors = [e] ∧
    (∀ s ∈ (main (Except.error e) w).world.screens,
      s.visible = true ↔ s.id = "screen-code") ∧
    clickValidateCode value (main (Except.error e) w) =
      Except.ok (main (Except.error e) w) ∧
    clicksValidateCode inputs (main (Except.error e) w) = main (Except.error e) w ∧
    (clicksValidateCode inputs (main (Except.error e) w)).world.storage = w.storage ∧
    (clicksValidateCode inputs (main (Except.error e) w)).world.tracked.map Event.name =
      w.tracked.map Event.name ++ ["screen_view", "screen_view"] := by
  have hready : (main (Except.error e) w).uiReady = false := rfl
  have hclicks := clicksValidateCode_not_ready inputs (main (Except.error e) w) hready
  refine ⟨?_, hready, rfl, ?_, clickValidateCode_not_ready value _ hready, hclicks, ?_, ?_⟩
  · rw [main_error_eq]
    simp only [showScreen_eq]
    exact h0
  · intro s hs
    rw [main_error_eq] at hs
    simp only [showScreen_screens, List.mem_map] at hs
    obtain ⟨s0, _, rfl⟩ := hs
    rw [toggleScreen_visible, toggleScreen_id]
  · rw [hclicks, main_error_eq]
    simp only [showScreen_storage]
  · rw [hclicks, main_error_eq]
    simp only [showScreen_eq, List.map_append, List.map_cons, List.map_nil,
      List.append_assoc, List.singleton_append]

/-- Witness for C12 as amended: the fetch of `config.json` fails on the sample page and
three codes are tried. -/
theorem C12_load_failure_witness :
    freshWorld.config = none ∧
    clickValidateCode "ABCD1234"
        (main (Except.error "Impossible de charger config.json") freshWorld) =
      Except.ok (main (Except.error "Impossible de charger config.json") freshWorld) ∧
    (clicksValidateCode ["ABCD1234", "ab", ""]
        (main (Except.error "Impossible de charger config.json") freshWorld)).world.storage =
      freshWorld.storage :=
  have h := C12_load_failure freshWorld "Impossible de charger config.json"
    ["ABCD1234", "ab", ""] "ABCD1234" rfl
  ⟨rfl, h.2.2.2.2.1, h.2.2.2.2.2.2.1⟩

/-- Counterexample to C12 as stated: after a failed load the click on the code button
with `"ABCD1234"` does not throw, because `initUI` never registered the listener; and a
listener that is registered on a null `CONFIG` (the document being the JSON `null`) does
not throw on a code shorter than four characters either, it shows `"Code invalide."`. -/
theorem C12_counterexample :
    (¬ ∃ err, clickValidateCode "ABCD1234"
        (main (Except.error "Impossible de charger config.json") freshWorld) =
      Except.error err) ∧
    (main (Except.ok none) freshWorld).world.config = none ∧
    (main (Except.ok none) freshWorld).uiReady = true ∧
    (∃ p1, clickValidateCode "ab" (main (Except.ok none) freshWorld) = Except.ok p1 ∧
      p1.world.codeMessage = "Code invalide.") := by
  refine ⟨?_, rfl, rfl, ?_⟩
  · rintro ⟨err, h⟩
    rw [clickValidateCode_not_ready _ _ rfl] at h
    cases h
  · have key : clickValidateCode "ab" (main (Except.ok none) freshWorld) =
        Except.ok
          { main (Except.ok none) freshWorld with
            world :=
              { (main (Except.ok none) freshWorld).world with
                codeMessage := invalidCodeMessage (main (Except.ok none) freshWorld).world } } := by
      unfold clickValidateCode
      rw [if_pos (show (main (Except.ok none) freshWorld).uiReady = true from rfl),
        btnValidateCode_short "ab" _ (Or.inr (by decide))]
    exact ⟨_, key, rfl⟩

/-! ## The count of correct sub-answers -/

theorem countCorrectFrom_eq_countP (questions : List Question) (answers : List String)
    (i acc : Nat) :
    countCorrectFrom questions answers i acc =
      acc + (questions.enumFrom i).countP
        (fun p => decide (answers.getD p.1 "" ≠ "" ∧ p.2.correct = some (answers.getD p.1 ""))) := by
  induction questions generalizing i acc with
  | nil => simp [countCorrectFrom]
  | cons q rest ih =>
    unfold countCorrectFrom
    rw [ih, List.enumFrom_cons, List.countP_cons]
    dsimp only
    by_cases h : answers.getD i "" ≠ "" ∧ q.correct = some (answers.getD i "")
    · rw [if_pos h, decide_eq_true h, if_pos rfl]
      omega
    · rw [if_neg h, decide_eq_false h, if_neg Bool.false_ne_true]
      omega

theorem correctCount_eq_spec (questions : List Question) (answers : List String) :
    correctCount questions answers = specCorrectCount questions answers := by
  unfold correctCount specCorrectCount
  rw [countCorrectFrom_eq_countP, Nat.zero_add]
  rfl

theorem correctCount_le (questions : List Question) (answers : List String) :
    correctCount questions answers ≤ questions.length := by
  have := countCorrectFrom_le questions answers 0 0
  unfold correctCount
  omega

theorem multiErrorText_suffix (r : Riddle) (c t : Nat) :
    multiErrorText r c t =
      (jsOr r.errorText "Pas tout bon." ++ " ") ++
        ("(" ++ toString c ++ "/" ++ toString t ++ ")") := by
  unfold multiErrorText
  simp only [String.append_assoc]
  rfl

theorem baseData_get_counts (riddleId c t : Nat) (w : World) :
    Obj.get (baseData [("riddleId", JsVal.num riddleId), ("correct", JsVal.num c),
        ("total", JsVal.num t)] w) "correct" = some (JsVal.num c) ∧
    Obj.get (baseData [("riddleId", JsVal.num riddleId), ("correct", JsVal.num c),
        ("total", JsVal.num t)] w) "total" = some (JsVal.num t) := by
  constructor <;> simp [baseData, Obj.spread, Obj.set, Obj.get]

theorem multi_validation_outcome (n : Nat) (r : Riddle) (answers : List String)
    (w w1 : World)
    (htr_err : correctCount (r.questions.getD []) answers ≠ (r.questions.getD []).length →
      w1.tracked = w.tracked ++
        [⟨"riddle_error",
          baseData [("riddleId", JsVal.num n),
            ("correct", JsVal.num (correctCount (r.questions.getD []) answers)),
            ("total", JsVal.num (r.questions.getD []).length)] w⟩])
    (htr_ok : correctCount (r.questions.getD []) answers = (r.questions.getD []).length →
      ∃ d, w1.tracked = w.tracked ++ [⟨"riddle_success", d⟩]) :
    ((∃ e, w1.tracked = w.tracked ++ [e] ∧ e.name = "riddle_error") ↔
      correctCount (r.questions.getD []) answers < (r.questions.getD []).length) ∧
    (correctCount (r.questions.getD []) answers < (r.questions.getD []).length →
      ∃ e, w1.tracked = w.tracked ++ [e] ∧ e.name = "riddle_error" ∧
        e.data.get "correct" =
          some (JsVal.num (correctCount (r.questions.getD []) answers)) ∧
        e.data.get "total" = some (JsVal.num (r.questions.getD []).length)) := by
  have hle := correctCount_le (r.questions.getD []) answers
  constructor
  · constructor
    · rintro ⟨e, he, hname⟩
      by_contra hlt
      have heq : correctCount (r.questions.getD []) answers = (r.questions.getD []).length := by
        omega
      obtain ⟨d, hd⟩ := htr_ok heq
      rw [hd] at he
      have := List.append_cancel_left he
      simp only [List.cons.injEq, and_true] at this
      rw [← this] at hname
      exact absurd (show "riddle_success" = "riddle_error" from hname) (by decide)
    · intro hlt
      exact ⟨_, htr_err (by omega), rfl⟩
  · intro hlt
    have hb := baseData_get_counts n (correctCount (r.questions.getD []) answers)
      (r.questions.getD []).length w
    exact ⟨_, htr_err (by omega), rfl, hb.1, hb.2⟩

/-- C13: on a configured multi-question riddle (2 or 3), for every list of selected
values, the `correctCount` of the validation loop is the number of sub-questions whose
selected value is non-empty and equals the configured correct value; it is at most
`total = questions.length`; the validation tracks a `riddle_error` exactly when
`correctCount < total`; and then the message of the riddle ends with
`"(correctCount/total)"` and the event carries the same `correct` and `total`. -/
theorem C13_correct_count (w : World) (a : Action) (n : Nat) (r : Riddle)
    (answers : List String)
    (ha : a = Action.validate2 answers ∨ a = Action.validate3 answers)
    (hn : riddleOf a = some n) (hr : findRiddle n w = some r) :
    correctCount (r.questions.getD []) answers =
      specCorrectCount (r.questions.getD []) answers ∧
    correctCount (r.questions.getD []) answers ≤ (r.questions.getD []).length ∧
    ((∃ e, (step a w).tracked = w.tracked ++ [e] ∧ e.name = "riddle_error") ↔
      correctCount (r.questions.getD []) answers < (r.questions.getD []).length) ∧
    (correctCount (r.questions.getD []) answers < (r.questions.getD []).length →
      (step a w).storage.totalErrors = some (errorsOf w + 1) ∧
      riddleMessage n (step a w) =
        (jsOr r.errorText "Pas tout bon." ++ " ") ++
          ("(" ++ toString (correctCount (r.questions.getD []) answers) ++ "/" ++
            toString (r.questions.getD []).length ++ ")") ∧
      ∃ e, (step a w).tracked = w.tracked ++ [e] ∧ e.name = "riddle_error" ∧
        e.data.get "correct" =
          some (JsVal.num (correctCount (r.questions.getD []) answers)) ∧
        e.data.get "total" = some (JsVal.num (r.questions.getD []).length)) := by
  refine ⟨correctCount_eq_spec _ _, correctCount_le _ _, ?_⟩
  rcases ha with rfl | rfl
  · cases hn
    have hout := multi_validation_outcome 2 r answers w (step (Action.validate2 answers) w)
      (by
        intro hne
        simp only [step, btnR2Validate, hr, hne, ne_eq, not_false_eq_true, if_true,
          recordMultiError_eq]
        rfl)
      (by
        intro heq
        simp only [step, btnR2Validate, hr, heq, ne_eq, not_true_eq_false, if_false,
          recordSuccess_eq, openModal]
        exact ⟨_, rfl⟩)
    refine ⟨hout.1, fun hlt => ⟨?_, ?_, hout.2 hlt⟩⟩
    · have hne : correctCount (r.questions.getD []) answers ≠ (r.questions.getD []).length := by
        omega
      simp only [step, btnR2Validate, hr, hne, ne_eq, not_false_eq_true, if_true,
        recordMultiError_eq]
      rfl
    · have hne : correctCount (r.questions.getD []) answers ≠ (r.questions.getD []).length := by
        omega
      simp only [step, btnR2Validate, hr, hne, ne_eq, not_false_eq_true, if_true,
        recordMultiError_eq, riddleMessage]
      exact multiErrorText_suffix r _ _
  · cases hn
    have hout := multi_validation_outcome 3 r answers w (step (Action.validate3 answers) w)
      (by
        intro hne
        simp only [step, btnR3Validate, hr, hne, ne_eq, not_false_eq_true, if_true,
          recordMultiError_eq]
        rfl)
      (by
        intro heq
        simp only [step, btnR3Validate, hr, heq, ne_eq, not_true_eq_false, if_false,
          recordSuccess_eq, openModal]
        exact ⟨_, rfl⟩)
    refine ⟨hout.1, fun hlt => ⟨?_, ?_, hout.2 hlt⟩⟩
    · have hne : correctCount (r.questions.getD []) answers ≠ (r.questions.getD []).length := by
        omega
      simp only [step, btnR3Validate, hr, hne, ne_eq, not_false_eq_true, if_true,
        recordMultiError_eq]
      rfl
    · have hne : correctCount (r.questions.getD []) answers ≠ (r.questions.getD []).length := by
        omega
      simp only [step, btnR3Validate, hr, hne, ne_eq, not_false_eq_true, if_true,
        recordMultiError_eq, riddleMessage]
      exact multiErrorText_suffix r _ _

/-- Witness for C13: on riddle 3 the first sub-question is answered correctly and the
second is left unselected. -/
theorem C13_correct_count_witness :
    riddleOf (Action.validate3 ["Paris", ""]) = some 3 ∧
    findRiddle 3 (sampleWorld 0) = some (sampleMulti 3) ∧
    correctCount sampleQuestions ["Paris", ""] = 1 ∧
    specCorrectCount sampleQuestions ["Paris", ""] = 1 ∧
    riddleMessage 3 (step (Action.validate3 ["Paris", ""]) (sampleWorld 0)) =
      "Pas tout bon. (1/2)" :=
  have h := C13_correct_count (sampleWorld 0) (Action.validate3 ["Paris", ""]) 3
    (sampleMulti 3) ["Paris", ""] (Or.inr rfl) rfl rfl
  ⟨rfl, rfl, by decide, h.1.symm.trans (by decide), (h.2.2.2 (by decide)).2.1⟩

/-! ## Hints across counter resets -/

theorem step_totalHints (w : World) (a : Action) (hne : ∀ i, a ≠ Action.hint i) :
    (step a w).storage.totalHints =
      if acceptsCode w a = true then some 0 else w.storage.totalHints := by
  cases a
  case hint i => exact absurd rfl (hne i)
  case validateCode value =>
    simp only [step, acceptsCode, accepted]
    rcases Option.eq_none_or_eq_some w.config with hcfg | ⟨cfg, hcfg⟩
    · by_cases hg : (w.str.toUpperCase (w.str.slice (w.str.trim value) 0 4) = "" ∨
          w.str.length (w.str.toUpperCase (w.str.slice (w.str.trim value) 0 4)) < 4)
      · rw [btnValidateCode_short value w hg]
        simp [hcfg]
      · rw [btnValidateCode_null value w hg hcfg]
        simp [hcfg]
    · by_cases hg : (w.str.toUpperCase (w.str.slice (w.str.trim value) 0 4) = "" ∨
          w.str.length (w.str.toUpperCase (w.str.slice (w.str.trim value) 0 4)) < 4)
      · rw [btnValidateCode_short value w hg]
        simp [hcfg, hg]
      · by_cases hm :
          w.str.toUpperCase (w.str.slice (w.str.trim value) 0 4) ∈ cfg.validPrefixes
        · obtain ⟨w1, h1, h2, _⟩ := btnValidateCode_known value w cfg hg hcfg hm
          rw [h1]
          simp [hcfg, hg, hm, h2]
        · rw [btnValidateCode_unknown value w cfg hcfg hm]
          simp [hcfg, hm]
  case preScoreBtn =>
    simp only [acceptsCode, Bool.false_eq_true, if_false]
    simp only [step, btnPreScoreClick]
    split
    · rw [(showScore_frame _).2.2.1, showScreen_storage]
    · rfl
  all_goals
    simp only [acceptsCode, Bool.false_eq_true, if_false]
    simp only [step, btnR1Validate, btnR2Validate, btnR3Validate, btnR4Validate, btnR5Validate,
      modalBtnClick, modalBackdropClick, modalClose,
      btnPostScoreClick, hideSplash, showPreScore, showPostScore, recordSuccess_eq,
      recordError_eq, recordMultiError_eq, showScreen_eq, openModal, baseTrackData_eq,
      track_eq, revealMessage, incrementErrors]
    repeat' split
    all_goals rfl

theorem run_hints_total (acts : List Action) (w : World) (r2 : Riddle)
    (hr : findRiddle 2 w = some r2)
    (hvalid : ∀ i ∈ hintIndices acts, i < (r2.questions.getD []).length)
    (hno : noAcceptRun w acts = true) :
    hintsOf (run acts w) =
      hintsOf w + ((hintIndices acts).toFinset \ w.usedHints.toFinset).card := by
  induction acts generalizing w with
  | nil => simp [run, hintIndices]
  | cons a rest ih =>
    simp only [noAcceptRun, Bool.and_eq_true, Bool.not_eq_true'] at hno
    by_cases ha : ∃ i, a = Action.hint i
    · obtain ⟨i, rfl⟩ := ha
      have hi : i < (r2.questions.getD []).length := hvalid i (by simp [hintIndices])
      have hrest : ∀ k ∈ hintIndices rest, k < (r2.questions.getD []).length :=
        fun k hk => hvalid k (by simp [hintIndices, hk])
      have hr1 : findRiddle 2 (step (Action.hint i) w) = some r2 := by
        rw [findRiddle_congr 2 w _ (step_frame (Action.hint i) w).1]
        exact hr
      have hstep := hintBtnClick_hints i w r2 hr hi
      rw [run_cons, ih (step (Action.hint i) w) hr1 hrest hno.2]
      have hset : (step (Action.hint i) w).usedHints.toFinset = insert i w.usedHints.toFinset := by
        ext j
        simp only [List.mem_toFinset, Finset.mem_insert]
        rw [show step (Action.hint i) w = hintBtnClick i w from rfl, hstep.2 j]
        tauto
      rw [hset, show step (Action.hint i) w = hintBtnClick i w from rfl, hstep.1]
      simp only [hintIndices, List.toFinset_cons]
      by_cases hu : i ∈ w.usedHints
      · have hmem : i ∈ w.usedHints.toFinset := List.mem_toFinset.mpr hu
        rw [if_pos hu, Finset.insert_eq_of_mem hmem, Finset.insert_sdiff_of_mem _ hmem]
        omega
      · have hmem : i ∉ w.usedHints.toFinset := fun h => hu (List.mem_toFinset.mp h)
        have e : insert i (hintIndices rest).toFinset \ w.usedHints.toFinset =
            insert i ((hintIndices rest).toFinset \ insert i w.usedHints.toFinset) := by
          ext j
          simp only [Finset.mem_sdiff, Finset.mem_insert]
          constructor
          · rintro ⟨h1 | h1, h2⟩
            · exact Or.inl h1
            · by_cases hji : j = i
              · exact Or.inl hji
              · exact Or.inr ⟨h1, fun h => h.elim hji h2⟩
          · rintro (h1 | ⟨h1, h2⟩)
            · exact ⟨Or.inl h1, h1 ▸ hmem⟩
            · exact ⟨Or.inr h1, fun h => h2 (Or.inr h)⟩
        have hnot : i ∉ (hintIndices rest).toFinset \ insert i w.usedHints.toFinset := by
          simp
        rw [if_neg hu, e, Finset.card_insert_of_not_mem hnot]
        omega
    · have hne : ∀ i, a ≠ Action.hint i := fun i h => ha ⟨i, h⟩
      have hidx : hintIndices (a :: rest) = hintIndices rest := by
        cases a <;> first | rfl | exact absurd rfl (hne _)
      have hr1 : findRiddle 2 (step a w) = some r2 := by
        rw [findRiddle_congr 2 w (step a w) (step_frame a w).1]
        exact hr
      rw [hidx] at hvalid ⊢
      rw [run_cons, ih (step a w) hr1 hvalid hno.2, (step_frame a w).2.2 hne]
      have hh : hintsOf (step a w) = hintsOf w := by
        unfold hintsOf
        rw [step_totalHints w a hne, hno.1]
        rfl
      rw [hh]

theorem run_config (acts : List Action) (w : World) : (run acts w).config = w.config := by
  induction acts generalizing w with
  | nil => rfl
  | cons a rest ih => rw [run_cons, ih, (step_frame a w).1]

/-- C4, as amended: on a freshly initialised page with riddle 2 configured, in any
sequence of handler runs (code validations included) every click on the hint button of
sub-question `i` adds 1 to `totalHints` when `i` was not clicked earlier in the sequence and
0 when it was, also when the counter was reset in between; an accepted code validation
sets the counter to 0; and a sequence in which no code validation is accepted adds to
`totalHints` the number of distinct indices clicked. -/
theorem C4_hint_counter (w : World) (r2 : Riddle) (acts : List Action)
    (hr : findRiddle 2 w = some r2)
    (h0 : w.usedHints = [])
    (hvalid : ∀ i ∈ hintIndices acts, i < (r2.questions.getD []).length) :
    (∀ pre i post, acts = pre ++ Action.hint i :: post →
      hintsOf (run (pre ++ [Action.hint i]) w) =
        hintsOf (run pre w) + (if i ∈ hintIndices pre then 0 else 1)) ∧
    (∀ pre value post, acts = pre ++ Action.validateCode value :: post →
      accepted (run pre w) value = true →
      hintsOf (run (pre ++ [Action.validateCode value]) w) = 0) ∧
    (noAcceptRun w acts = true →
      hintsOf (run acts w) = hintsOf w + (hintIndices acts).toFinset.card) := by
  refine ⟨?_, ?_, ?_⟩
  · intro pre i post hacts
    have hpre : ∀ k ∈ hintIndices pre, k < (r2.questions.getD []).length := by
      intro k hk
      apply hvalid k
      rw [hacts, hintIndices_append]
      exact List.mem_append_left _ hk
    have hi : i < (r2.questions.getD []).length := by
      apply hvalid i
      rw [hacts, hintIndices_append]
      exact List.mem_append_right _ (by simp [hintIndices])
    have hr1 : findRiddle 2 (run pre w) = some r2 := by
      rw [findRiddle_congr 2 w (run pre w) (run_config pre w)]
      exact hr
    have hused := run_usedHints pre w r2 hr hpre i
    rw [h0] at hused
    have hiff : i ∈ (run pre w).usedHints ↔ i ∈ hintIndices pre := by
      rw [hused]
      simp
    rw [run_append]
    show hintsOf (hintBtnClick i (run pre w)) = _
    rw [(hintBtnClick_hints i (run pre w) r2 hr1 hi).1]
    by_cases hin : i ∈ hintIndices pre
    · rw [if_pos hin, if_pos (hiff.mpr hin)]
    · rw [if_neg hin, if_neg (fun h => hin (hiff.mp h))]
  · intro pre value post _ hacc
    rw [run_append]
    show hintsOf (step (Action.validateCode value) (run pre w)) = 0
    unfold hintsOf
    rw [step_totalHints (run pre w) (Action.validateCode value) (fun i h => by cases h)]
    have hc : acceptsCode (run pre w) (Action.validateCode value) = true := hacc
    rw [if_pos hc]
    rfl
  · intro hno
    rw [run_hints_total acts w r2 hr hvalid hno, h0]
    simp

/-- Witness for C4 as amended: hint 0, a new code validation, hint 0 again, hint 1.  The
second click on hint 0 adds nothing although the counter was reset in between. -/
theorem C4_hint_counter_witness :
    findRiddle 2 (sampleWorld 0) = some (sampleMulti 2) ∧
    (sampleWorld 0).usedHints = [] ∧
    (∀ i ∈ hintIndices
        [Action.hint 0, Action.validateCode "ABCD1", Action.hint 0, Action.hint 1],
      i < ((sampleMulti 2).questions.getD []).length) ∧
    hintsOf (run ([Action.hint 0, Action.validateCode "ABCD1"] ++ [Action.hint 0])
        (sampleWorld 0)) =
      hintsOf (run [Action.hint 0, Action.validateCode "ABCD1"] (sampleWorld 0)) +
        (if 0 ∈ hintIndices [Action.hint 0, Action.validateCode "ABCD1"] then 0 else 1) :=
  ⟨rfl, rfl, by decide,
    (C4_hint_counter (sampleWorld 0) (sampleMulti 2)
      [Action.hint 0, Action.validateCode "ABCD1", Action.hint 0, Action.hint 1]
      rfl rfl (by decide)).1
      [Action.hint 0, Action.validateCode "ABCD1"] 0 [Action.hint 1] rfl⟩

/-- Counterexample to C4 as stated: hint 0, an accepted code validation, hint 0 again,
hint 1 on the fresh sample page.  Two distinct sub-questions are clicked and the counter
starts at 0, yet it ends at 1: the validation reset it to 0 and the second click on hint 0
is not counted again. -/
theorem C4_counterexample :
    findRiddle 2 (sampleWorld 0) = some (sampleMulti 2) ∧
    (sampleWorld 0).usedHints = [] ∧
    hintsOf (sampleWorld 0) = 0 ∧
    (hintIndices
      [Action.hint 0, Action.validateCode "ABCD1", Action.hint 0, Action.hint 1]).toFinset.card
      = 2 ∧
    hintsOf (run [Action.hint 0] (sampleWorld 0)) = 1 ∧
    hintsOf (run [Action.hint 0, Action.validateCode "ABCD1"] (sampleWorld 0)) = 0 ∧
    hintsOf (run [Action.hint 0, Action.validateCode "ABCD1", Action.hint 0]
      (sampleWorld 0)) = 0 ∧
    hintsOf (run [Action.hint 0, Action.validateCode "ABCD1", Action.hint 0, Action.hint 1]
      (sampleWorld 0)) = 1 ∧
    hintsOf (run [Action.hint 0, Action.validateCode "ABCD1", Action.hint 0, Action.hint 1]
      (sampleWorld 0)) ≠
      hintsOf (sampleWorld 0) +
        (hintIndices
          [Action.hint 0, Action.validateCode "ABCD1", Action.hint 0,
            Action.hint 1]).toFinset.card := by
  refine ⟨rfl, rfl, rfl, by decide, by decide, by decide, by decide, by decide, by decide⟩

end JeuEnquete
